import Mathlib

/-!
Verification of the CSV validation / type-inference engine and the batch
graph-ingestion pipeline of a graph query platform.

The development shallowly embeds the Python sources:
  * `backend/core/csv_processor.py`  — CSV validators, type inference,
    `detect_file_type`;
  * `backend/core/neo4j_client.py`   — batched node / relationship upserts
    against the property-graph store;
  * `backend/datasets/tasks.py`      — the node / relationship ingestion
    tasks, label resolution and cascade synchronisation.

Cell values are modelled as `String`s, parsed CSV rows as association lists
`List (String × Option String)` (the `DictReader` view: empty cells become
`none`), and the graph store as an explicit state threaded through the
operations.  Python's numeric / date parsing routines used by the sources
(`int`, `float`, `str.isdigit`, `datetime.strptime` at the fixed format
lists) are modelled character-for-character on ASCII input.
-/

namespace GQP

/-! ### Python string primitives -/

/-- ASCII whitespace stripped by Python's `str.strip()`. -/
def isPySpace (c : Char) : Bool :=
  c = ' ' || c = '\t' || c = '\n' || c = '\r' || c = '\x0b' || c = '\x0c'

/-- Strip leading and trailing whitespace from a character list. -/
def trimChars (l : List Char) : List Char :=
  ((l.dropWhile isPySpace).reverse.dropWhile isPySpace).reverse

/-- Python `str.strip()`. -/
def pyStrip (s : String) : String := ⟨trimChars s.data⟩

/-- Python `str.lower()` (ASCII). -/
def pyLower (s : String) : String := ⟨s.data.map Char.toLower⟩

/-- `col.lower().strip()` — the normalisation the validators apply to header
cells. -/
def lowerStrip (s : String) : String := pyStrip (pyLower s)

/-- Python truthiness of an optional string: `None` and `""` are falsy. -/
def truthy : Option String → Bool
  | none => false
  | some s => s ≠ ""

/-! ### Python `int()` on strings

`int(x)` accepts optional surrounding whitespace, an optional sign and a
digit run in which single underscores may separate digits. -/

/-- Continuation of a digit run: digits, optionally separated by single
underscores. -/
def digitsUSRest : List Char → Bool
  | [] => true
  | '_' :: c :: cs => c.isDigit && digitsUSRest cs
  | ['_'] => false
  | c :: cs => c.isDigit && digitsUSRest cs

/-- A nonempty digit run with optional single underscores between digits. -/
def digitsUS : List Char → Bool
  | [] => false
  | c :: cs => c.isDigit && digitsUSRest cs

/-- Numeric value of a digit list (underscores skipped). -/
def digitsToNat (l : List Char) : Nat :=
  l.foldl (fun acc c => if c.isDigit then acc * 10 + (c.toNat - '0'.toNat) else acc) 0

/-- Python `int(s)` on a string: `some` value, or `none` when it raises. -/
def pyIntParse (s : String) : Option Int :=
  let t := trimChars s.data
  let sgnBody : Int × List Char :=
    match t with
    | '+' :: r => (1, r)
    | '-' :: r => (-1, r)
    | r => (1, r)
  if digitsUS sgnBody.2 then
    some (sgnBody.1 * (digitsToNat sgnBody.2 : Int))
  else none

/-! ### Python `float()` acceptance -/

/-- Split a list at the first occurrence of `c`; `none` if absent. -/
def splitFirst (c : Char) : List Char → Option (List Char × List Char)
  | [] => none
  | x :: xs =>
    if x = c then some ([], xs)
    else match splitFirst c xs with
      | some (a, b) => some (x :: a, b)
      | none => none

/-- Mantissa of a float literal: `D`, `D.`, `D.D` or `.D` with `D` a digit
run (underscores allowed). -/
def mantissaOk (l : List Char) : Bool :=
  match splitFirst '.' l with
  | none => digitsUS l
  | some (a, b) =>
    (digitsUS a && (b = [] || digitsUS b)) || (a = [] && digitsUS b)

/-- Exponent part after `e`: optional sign then a digit run. -/
def expOk (l : List Char) : Bool :=
  match l with
  | '+' :: r => digitsUS r
  | '-' :: r => digitsUS r
  | r => digitsUS r

/-- Whether Python `float(s)` succeeds on a string. -/
def pyFloatOk (s : String) : Bool :=
  let t := (trimChars s.data).map Char.toLower
  let body : List Char :=
    match t with
    | '+' :: r => r
    | '-' :: r => r
    | r => r
  if body = "inf".data || body = "infinity".data || body = "nan".data then true
  else match splitFirst 'e' body with
    | none => mantissaOk body
    | some (m, e) => mantissaOk m && expOk e

/-- Python `str.isdigit()` on ASCII: nonempty and all digits. -/
def pyIsDigit (s : String) : Bool := s.data ≠ [] && s.data.all Char.isDigit

/-! ### `datetime.strptime` at the fixed format lists of `csv_processor.py` -/

/-- Split a list on every occurrence of a separator character. -/
def splitOnChar (sep : Char) : List Char → List (List Char)
  | [] => [[]]
  | c :: cs =>
    let r := splitOnChar sep cs
    if c = sep then [] :: r
    else match r with
      | h :: t => (c :: h) :: t
      | [] => [[c]]

/-- A numeric field of at most `maxLen` digits. -/
def numField (l : List Char) (maxLen : Nat) : Option Nat :=
  if l ≠ [] && l.length ≤ maxLen && l.all Char.isDigit then some (digitsToNat l)
  else none

/-- `%Y`: exactly four digits (then validated to ≥ 1 by the calendar check). -/
def yearField (l : List Char) : Option Nat :=
  if l.length = 4 && l.all Char.isDigit then some (digitsToNat l) else none

/-- `%m`: one or two digits in 1..12. -/
def monthField (l : List Char) : Option Nat :=
  match numField l 2 with
  | some m => if 1 ≤ m && m ≤ 12 then some m else none
  | none => none

/-- `%d`: one or two digits in 1..31 (calendar-validated afterwards). -/
def dayField (l : List Char) : Option Nat :=
  match numField l 2 with
  | some d => if 1 ≤ d && d ≤ 31 then some d else none
  | none => none

def isLeapYear (y : Nat) : Bool := (y % 4 = 0 && y % 100 ≠ 0) || y % 400 = 0

def daysInMonth (y m : Nat) : Nat :=
  if m = 2 then (if isLeapYear y then 29 else 28)
  else if m = 4 || m = 6 || m = 9 || m = 11 then 30
  else 31

/-- `datetime(year, month, day)` constructor validity (year ≥ 1; four-digit
fields keep it ≤ 9999). -/
def validYMD (y m d : Nat) : Bool :=
  1 ≤ y && 1 ≤ m && m ≤ 12 && 1 ≤ d && d ≤ daysInMonth y m

/-- Date fields in the order (year, month, day) from three raw fields. -/
def ymdOk (y m d : List Char) : Bool :=
  match yearField y, monthField m, dayField d with
  | some Y, some M, some D => validYMD Y M D
  | _, _, _ => false

/-- `%Y-%m-%d`. -/
def dateYMDdash (l : List Char) : Bool :=
  match splitOnChar '-' l with
  | [y, m, d] => ymdOk y m d
  | _ => false

/-- `%m/%d/%Y`. -/
def dateMDYslash (l : List Char) : Bool :=
  match splitOnChar '/' l with
  | [m, d, y] => ymdOk y m d
  | _ => false

/-- `%d/%m/%Y`. -/
def dateDMYslash (l : List Char) : Bool :=
  match splitOnChar '/' l with
  | [d, m, y] => ymdOk y m d
  | _ => false

/-- `%Y/%m/%d`. -/
def dateYMDslash (l : List Char) : Bool :=
  match splitOnChar '/' l with
  | [y, m, d] => ymdOk y m d
  | _ => false

/-- `CSVProcessor._is_date`: the value parses under one of the four date
formats (the loop returns on the first format that succeeds, so acceptance
is the disjunction). -/
def isDateStr (s : String) : Bool :=
  dateYMDdash s.data || dateMDYslash s.data || dateDMYslash s.data ||
    dateYMDslash s.data

/-- `%H`: 0..23, one or two digits. -/
def hourField (l : List Char) : Option Nat :=
  match numField l 2 with
  | some h => if h ≤ 23 then some h else none
  | none => none

/-- `%M` / `%S`: 0..59, one or two digits. -/
def minSecField (l : List Char) : Option Nat :=
  match numField l 2 with
  | some v => if v ≤ 59 then some v else none
  | none => none

/-- `%H:%M:%S`. -/
def timeHMS (l : List Char) : Bool :=
  match splitOnChar ':' l with
  | [h, m, s] =>
    (hourField h).isSome && (minSecField m).isSome && (minSecField s).isSome
  | _ => false

/-- `%H:%M:%S.%f` (`%f`: one to six digits). -/
def timeHMSf (l : List Char) : Bool :=
  match splitOnChar ':' l with
  | [h, m, sf] =>
    (hourField h).isSome && (minSecField m).isSome &&
      (match splitOnChar '.' sf with
       | [s, f] =>
         (minSecField s).isSome && f ≠ [] && f.length ≤ 6 && f.all Char.isDigit
       | _ => false)
  | _ => false

/-- Split into exactly two parts at a separator and test each part. -/
def twoPartsOk (sep : Char) (p q : List Char → Bool) (l : List Char) : Bool :=
  match splitOnChar sep l with
  | [a, b] => p a && q b
  | _ => false

/-- `CSVProcessor._is_datetime`: the five datetime formats, any of which
accepts the value. -/
def isDatetimeStr (s : String) : Bool :=
  twoPartsOk ' ' dateYMDdash timeHMS s.data ||
  twoPartsOk 'T' dateYMDdash timeHMS s.data ||
  twoPartsOk ' ' dateYMDdash timeHMSf s.data ||
  twoPartsOk 'T' dateYMDdash timeHMSf s.data ||
  twoPartsOk ' ' dateMDYslash timeHMS s.data

/-! ### `CSVProcessor._detect_column_type` -/

def TYPE_DETECTION_SAMPLE_SIZE : Nat := 100

/-- `CSVProcessor._is_integer`. -/
def isIntegerStr (s : String) : Bool := (pyIntParse s).isSome

/-- `CSVProcessor._is_float`. -/
def isFloatStr (s : String) : Bool := pyFloatOk s

/-- `CSVProcessor._is_boolean`. -/
def isBooleanStr (s : String) : Bool :=
  let l := pyLower s
  l = "true" || l = "false" || l = "1" || l = "0" || l = "yes" || l = "no"

/-- `CSVProcessor._detect_column_type`: sample the first 100 values and test
the classes in fixed order, first all-accepting class wins. -/
def detectColumnType (values : List String) : String :=
  if values = [] then "string"
  else
    let sample := values.take TYPE_DETECTION_SAMPLE_SIZE
    if sample.all isIntegerStr then "integer"
    else if sample.all isFloatStr then "float"
    else if sample.all isBooleanStr then "boolean"
    else if sample.all isDateStr then "date"
    else if sample.all isDatetimeStr then "datetime"
    else "string"

/-! ### String helpers shared by the validator embedding -/

/-- `sep.join(xs)`. -/
def strJoin (sep : String) : List String → String
  | [] => ""
  | [x] => x
  | x :: xs => x ++ sep ++ strJoin sep xs

def startsWithL : List Char → List Char → Bool
  | [], _ => true
  | _ :: _, [] => false
  | p :: ps, c :: cs => p = c && startsWithL ps cs

/-- Whether `pat` occurs as a contiguous sublist of the second list. -/
def containsL (pat : List Char) : List Char → Bool
  | [] => pat.isEmpty
  | c :: cs => startsWithL pat (c :: cs) || containsL pat cs

/-- Python `pat in hay` on strings. -/
def strContains (hay pat : String) : Bool := containsL pat.data hay.data

/-- Python `c in s` for a single character. -/
def charIn (s : String) (c : Char) : Bool := s.data.contains c

/-! ### `CSVValidator` (`backend/core/csv_processor.py`)

A CSV file is modelled as the list of its parsed rows (`List (List String)`),
the first row being the header; the empty list models a zero-byte file.
`VKind` selects the subclass whose `_validate_row_data` runs
(`NodeCSVValidator` or `RelationshipCSVValidator`). -/

inductive VKind where
  | node
  | relationship
deriving DecidableEq, Repr

def MAX_ROW_VALIDATION : Nat := 10000

/-- `CSVValidator._validate_required_columns`: classify the file from its
header and report missing required columns.  Returns
`(is_relationship_file, missing_required_columns, errors)`. -/
def validateRequiredColumns (header : List String) :
    Bool × List String × List String :=
  let headerLower := header.map lowerStrip
  let hasId := headerLower.contains "id"
  let hasSourceId := headerLower.contains "source_id"
  let hasTargetId := headerLower.contains "target_id"
  if hasSourceId || hasTargetId then
    let missing := (if hasSourceId then [] else ["source_id"]) ++
      (if hasTargetId then [] else ["target_id"])
    let errs :=
      if missing ≠ [] then
        ["For relationship files required fields: " ++ strJoin " and " missing]
      else []
    (true, missing, errs)
  else
    if hasId then (false, [], [])
    else (false, ["id"], ["For node files required fields: id"])

/-- `CSVValidator._validate_header_duplicates`. -/
def validateHeaderDuplicates (header : List String) : List String :=
  let headerLower := header.map lowerStrip
  if header.length ≠ headerLower.dedup.length then
    let dups := (headerLower.foldl
      (fun (acc : List String × List String) col =>
        let (seen, duplicates) := acc
        let duplicates :=
          if seen.contains col && ¬ duplicates.contains col then
            duplicates ++ [col]
          else duplicates
        (seen ++ [col], duplicates)) ([], [])).2
    ["Duplicate columns: " ++ strJoin ", " dups]
  else []

/-- `CSVValidator._validate_csv_escaping`: per-cell quote / newline
warnings. -/
def validateCsvEscaping (row : List String) (rowNum : Nat) : List String :=
  (List.enumFrom 1 row).foldr (fun cv acc =>
    let colIdx := cv.1
    let cell := cv.2
    if cell = "" then acc
    else
      let isQuoted := cell.data.head? = some '"' && cell.data.getLast? = some '"'
      let quoteW :=
        if charIn cell '"' &&
            (cell.data.countP (· = '"')) % 2 ≠ 0 && ¬ isQuoted then
          ["Row " ++ toString rowNum ++ ", Column " ++ toString colIdx ++
            ": Possible unescaped quote - Proper CSV escaping for special characters required"]
        else []
      let newlineW :=
        if (charIn cell '\n' || charIn cell '\r') && ¬ isQuoted then
          ["Row " ++ toString rowNum ++ ", Column " ++ toString colIdx ++
            ": Newline detected - Proper CSV escaping for special characters required"]
        else []
      quoteW ++ newlineW ++ acc) []

/-- `dict(zip(header, row))`: later duplicate keys overwrite the value but
keep the first key's position. -/
def dictInsert (d : List (String × String)) (k v : String) :
    List (String × String) :=
  if d.any (·.1 = k) then d.map (fun p => if p.1 = k then (k, v) else p)
  else d ++ [(k, v)]

def dictZip (header row : List String) : List (String × String) :=
  (header.zip row).foldl (fun d kv => dictInsert d kv.1 kv.2) []

def dictGet (d : List (String × String)) (k : String) : Option String :=
  (d.find? (·.1 = k)).map (·.2)

/-- `NodeCSVValidator._validate_row_data`.  Returns `(errors, warnings)`. -/
def nodeRowData (isRelFile : Bool) (missing : List String)
    (header row : List String) (rowNum : Nat) : List String × List String :=
  if isRelFile then ([], [])
  else
    let rowDict := dictZip header row
    if missing.contains "id" then ([], [])
    else
      let idCol := (rowDict.map (·.1)).find? (fun col => pyLower col = "id")
      let errs :=
        match idCol with
        | none =>
          if ¬ missing.contains "id" then
            ["Row " ++ toString rowNum ++ ": Missing 'id' column"]
          else []
        | some col =>
          match dictGet rowDict col with
          | some v =>
            if v = "" || pyStrip v = "" then
              ["Row " ++ toString rowNum ++ ": Empty 'id' value"]
            else []
          | none => []
      let warns :=
        if row.all (fun v => pyStrip v = "") then
          ["Row " ++ toString rowNum ++ ": Empty row"]
        else []
      (errs, warns)

/-- `RelationshipCSVValidator._validate_row_data`. -/
def relRowData (missing : List String) (header row : List String)
    (rowNum : Nat) : List String × List String :=
  let rowDict := dictZip header row
  let sourceIdCol := header.find? (fun col => lowerStrip col = "source_id")
  let targetIdCol := header.find? (fun col => lowerStrip col = "target_id")
  let skipSource := missing.contains "source_id"
  let skipTarget := missing.contains "target_id"
  let sourceRes : Option String × List String :=
    if skipSource then (none, [])
    else match sourceIdCol with
      | some col =>
        let v := pyStrip ((dictGet rowDict col).getD "")
        if v = "" then (some v, ["Row " ++ toString rowNum ++ ": Empty 'source_id'"])
        else (some v, [])
      | none =>
        if ¬ missing.contains "source_id" then
          (none, ["Row " ++ toString rowNum ++ ": Missing 'source_id' column"])
        else (none, [])
  let targetRes : Option String × List String :=
    if skipTarget then (none, [])
    else match targetIdCol with
      | some col =>
        let v := pyStrip ((dictGet rowDict col).getD "")
        if v = "" then (some v, ["Row " ++ toString rowNum ++ ": Empty 'target_id'"])
        else (some v, [])
      | none =>
        if ¬ missing.contains "target_id" then
          (none, ["Row " ++ toString rowNum ++ ": Missing 'target_id' column"])
        else (none, [])
  let selfW :=
    match sourceRes.1, targetRes.1 with
    | some s, some t =>
      if s ≠ "" && t ≠ "" && s = t then
        ["Row " ++ toString rowNum ++
          ": The source and target IDs are the same. This creates a self-referencing relationship."]
      else []
    | _, _ => []
  (sourceRes.2 ++ targetRes.2, selfW)

/-- Dispatch to the subclass's `_validate_row_data`. -/
def rowDataChecks (kind : VKind) (isRelFile : Bool) (missing : List String)
    (header row : List String) (rowNum : Nat) : List String × List String :=
  match kind with
  | .node => nodeRowData isRelFile missing header row rowNum
  | .relationship => relRowData missing header row rowNum

/-- A completely blank row (skipped without counting). -/
def isBlankRow (row : List String) : Bool :=
  row.isEmpty || row.all (fun cell => pyStrip cell = "")

/-- `CSVValidator._validate_rows`, one step per physical row; `rowNum` is the
1-based file row (header = row 1), `rowCount` counts non-blank rows seen.
Returns `(errors, warnings, final rowCount)`. -/
def validateRowsAux (kind : VKind) (isRelFile : Bool) (missing : List String)
    (header : List String) :
    List (List String) → Nat → Nat → List String × List String × Nat
  | [], _, rowCount => ([], [], rowCount)
  | row :: rest, rowNum, rowCount =>
    if isBlankRow row then
      validateRowsAux kind isRelFile missing header rest (rowNum + 1) rowCount
    else
      let rowCount' := rowCount + 1
      if rowCount' > MAX_ROW_VALIDATION then
        let w :=
          if rowCount' = MAX_ROW_VALIDATION + 1 then
            ["File has more than " ++ toString MAX_ROW_VALIDATION ++
              " rows. Validation limited to first " ++
              toString MAX_ROW_VALIDATION ++ " rows."]
          else []
        let r := validateRowsAux kind isRelFile missing header rest (rowNum + 1) rowCount'
        (r.1, w ++ r.2.1, r.2.2)
      else if row.length ≠ header.length then
        let e := "Row " ++ toString rowNum ++
          ": All rows must have the same number of columns (" ++
          toString row.length ++ " vs " ++ toString header.length ++ ")"
        let r := validateRowsAux kind isRelFile missing header rest (rowNum + 1) rowCount'
        (e :: r.1, r.2.1, r.2.2)
      else
        let escW := validateCsvEscaping row rowNum
        let (rdE, rdW) := rowDataChecks kind isRelFile missing header row rowNum
        let r := validateRowsAux kind isRelFile missing header rest (rowNum + 1) rowCount'
        (rdE ++ r.1, escW ++ rdW ++ r.2.1, r.2.2)

/-- `CSVValidator._validate_rows` over the data rows (header = row 1, data
starts at row 2). -/
def validateRows (kind : VKind) (isRelFile : Bool) (missing : List String)
    (header : List String) (rows : List (List String)) :
    List String × List String :=
  let r := validateRowsAux kind isRelFile missing header rows 2 0
  (r.1, r.2.1 ++ (if r.2.2 = 0 then ["No data rows found"] else []))

/-- One `for error in self.errors` step of `_consolidate_errors`: the state is
`(seen, consolidated)`. -/
def consolidateStep (missing : List String)
    (acc : List String × List String) (error : String) :
    List String × List String :=
  let (seen, consolidated) := acc
  if seen.contains error then acc
  else
    let seen := seen ++ [error]
    if strContains error "For node files required fields" ||
        strContains error "For relationship files required fields" then
      (seen, consolidated ++ [error])
    else if strContains error "Row" && strContains error "Missing" then
      let isRedundant :=
        missing.any (fun col => strContains (pyLower error) (pyLower col))
      if ¬ isRedundant then (seen, consolidated ++ [error])
      else (seen, consolidated)
    else (seen, consolidated ++ [error])

/-- `CSVValidator._consolidate_errors`: drop duplicates, keep header-level
required-field errors, drop row-level `Missing` errors about a column already
flagged missing at header level. -/
def consolidateErrors (missing : List String) (errors : List String) :
    List String :=
  if errors = [] then []
  else (errors.foldl (consolidateStep missing) ([], [])).2

/-- `CSVValidator.validate`: the full validation pipeline on an in-memory
file.  Returns `(is_valid, errors, warnings)`. -/
def validateCSV (kind : VKind) (fileRows : List (List String)) :
    Bool × List String × List String :=
  match fileRows with
  | [] => (false, ["Empty file"], [])
  | header :: rest =>
    if header.isEmpty || ¬ header.all (fun col => pyStrip col ≠ "") then
      (false, ["First row MUST contain column headers (property names)"], [])
    else
      let rc := validateRequiredColumns header
      let isRelFile := rc.1
      let missing := rc.2.1
      let e1 := rc.2.2
      let e2 := validateHeaderDuplicates header
      let (e3, warns) := validateRows kind isRelFile missing header rest
      let errors := consolidateErrors missing (e1 ++ e2 ++ e3)
      (errors.isEmpty, errors, warns)

/-- `validate_node_csv`. -/
def validateNodeCSV (fileRows : List (List String)) :
    Bool × List String × List String :=
  validateCSV .node fileRows

/-- `validate_relationship_csv`. -/
def validateRelationshipCSV (fileRows : List (List String)) :
    Bool × List String × List String :=
  validateCSV .relationship fileRows

/-! ### `detect_file_type`

The file read is modelled as `Except String (Option (List String))`:
`.error` for any I/O or decoding exception while opening / reading,
`.ok none` for a file with no first row, and `.ok (some header)` for the
parsed first row. -/

def detectFileType (file : Except String (Option (List String))) : String :=
  match file with
  | .error _ => "node"
  | .ok none => "node"
  | .ok (some header) =>
    if header.isEmpty then "node"
    else
      let headerLower := header.map lowerStrip
      if headerLower.contains "source_id" && headerLower.contains "target_id" then
        "relationship"
      else "node"

/-! ### Property values and the graph store

Node / relationship property values as the pipeline materialises them.  A
float is kept as its source text (`vfloat`): no claim inspects float
arithmetic, only which constructor a cell converts to. -/

inductive PVal where
  | vint (i : Int)
  | vstr (s : String)
  | vbool (b : Bool)
  | vfloat (raw : String)
  | vnull
deriving DecidableEq, Repr

/-- A Python dict of properties: keys in insertion order, values unique per
key. -/
abbrev Props := List (String × PVal)

def propGet (p : Props) (k : String) : Option PVal :=
  (p.find? (·.1 = k)).map (·.2)

/-- Dict assignment `p[k] = v`: overwrite in place or append (keys are unique
in a Python dict). -/
def propSet : Props → String → PVal → Props
  | [], k, v => [(k, v)]
  | (k', v') :: rest, k, v =>
    if k' = k then (k, v) :: rest else (k', v') :: propSet rest k v

/-- A stored node: `handle` is the store-internal identity (stable across
property overwrites), `label` its label, `props` its property map. -/
structure GNode where
  handle : Nat
  label : String
  props : Props
deriving DecidableEq, Repr

/-- A stored relationship between two node handles. -/
structure GRel where
  src : Nat
  tgt : Nat
  typ : String
  props : Props
deriving DecidableEq, Repr

structure Graph where
  nextHandle : Nat
  nodes : List GNode
  rels : List GRel
deriving DecidableEq, Repr

def Graph.empty : Graph := ⟨0, [], []⟩

/-- Chunking worker, structurally recursive on a fuel bounded by the list
length (each step drops at least one element when `n ≥ 1`). -/
def chunkListGo (n : Nat) : Nat → List α → List (List α)
  | _, [] => []
  | 0, l => [l]
  | fuel + 1, x :: xs =>
    if n = 0 then [x :: xs]
    else (x :: xs).take n :: chunkListGo n fuel ((x :: xs).drop n)

/-- Split a list into consecutive chunks of `n` (the `range(0, len, n)`
slicing loops of `neo4j_client.py` and `tasks.py`). -/
def chunkList (n : Nat) (l : List α) : List (List α) :=
  chunkListGo n l.length l

/-- One row of the batched `MERGE (n:label {uid: node.uid}) SET n = node`:
match every node with the label and key value and overwrite its whole
property map, else create a fresh node.  Cypher raises on a null / absent
merge key. -/
def mergeNode (label uid : String) (props : Props) (g : Graph) :
    Except String Graph :=
  match propGet props uid with
  | none => .error "Cannot merge node using null property value"
  | some v =>
    if v = .vnull then .error "Cannot merge node using null property value"
    else if g.nodes.any (fun n => n.label = label && propGet n.props uid = some v) then
      .ok { g with nodes := g.nodes.map (fun n =>
        if n.label = label && propGet n.props uid = some v then
          { n with props := props }
        else n) }
    else
      .ok { g with
        nextHandle := g.nextHandle + 1,
        nodes := g.nodes ++ [⟨g.nextHandle, label, props⟩] }

/-- `Neo4jClient.create_nodes_batch`: chunk the node list, run the
`UNWIND … MERGE … SET n = node` query per chunk (one merge per row, each row
counted), `CREATE` instead when no unique key is given.  Any query error
propagates (`raise`). -/
def createNodesBatch (label : String) (nodes : List Props)
    (uniqueId : Option String) (batchSize : Nat) (g : Graph) :
    Except String (Graph × Nat) :=
  (chunkList batchSize nodes).foldlM
    (fun (acc : Graph × Nat) batch =>
      batch.foldlM
        (fun (acc2 : Graph × Nat) props =>
          match uniqueId with
          | some uid =>
            (mergeNode label uid props acc2.1).map (fun g' => (g', acc2.2 + 1))
          | none =>
            .ok ({ acc2.1 with
                nextHandle := acc2.1.nextHandle + 1,
                nodes := acc2.1.nodes ++ [⟨acc2.1.nextHandle, label, props⟩] },
              acc2.2 + 1))
        acc)
    (g, 0)

/-- Modelled from the spec: `neo4j_client.delete_nodes_not_in_set` is invoked
by `process_node_csv_task` (tasks.py, cascade sync) but no such method is
defined in `backend/core/neo4j_client.py` or anywhere under the sources.
Per the spec's cascade-sync contract, it deletes, for the given label and
dataset tag, every existing entity whose identifier is not in `idsInFile`,
together with those entities' relationships, returning the deleted-node
count. -/
def cascadeDoomed (label : String) (datasetId : Int) (idProperty : String)
    (idsInFile : List PVal) (n : GNode) : Bool :=
  n.label = label && propGet n.props "dataset_id" = some (.vint datasetId) &&
    !(match propGet n.props idProperty with
      | some v => idsInFile.contains v
      | none => false)

def deleteNodesNotInSet (label : String) (datasetId : Int) (idProperty : String)
    (idsInFile : List PVal) (g : Graph) : Graph × Nat :=
  let isDoomed := cascadeDoomed label datasetId idProperty idsInFile
  let doomedHandles := (g.nodes.filter isDoomed).map (·.handle)
  ({ g with
      nodes := g.nodes.filter (fun n => ¬ isDoomed n),
      rels := g.rels.filter (fun r =>
        ¬ doomedHandles.contains r.src && ¬ doomedHandles.contains r.tgt) },
    (g.nodes.filter isDoomed).length)

/-- One row of the batched relationship upsert, as `create_relationships_batch`
prepares it: endpoint identifiers plus the property map (which already
carries the dataset tag). -/
structure RelData where
  sourceId : PVal
  targetId : PVal
  props : Props
deriving DecidableEq, Repr

/-- `Neo4jClient.create_relationships_batch`, generic over the store state
`σ`.  `acquire` models obtaining the driver session (outside the per-batch
`try`), `runQuery` models one `session.run` of the `UNWIND … MERGE` query
returning the processed-row count.  A `runQuery` exception is caught and the
batch skipped (`continue`); only an `acquire` failure escapes. -/
def createRelationshipsBatch {σ : Type} (acquire : Except String Unit)
    (runQuery : σ → List RelData → Except String (σ × Nat))
    (batchSize : Nat) (relationships : List RelData) (s : σ) :
    Except String (σ × Nat) :=
  match acquire with
  | .error e => .error e
  | .ok _ =>
    .ok ((chunkList batchSize relationships).foldl
      (fun (acc : σ × Nat) batch =>
        match runQuery acc.1 batch with
        | .ok (s', n) => (s', acc.2 + n)
        | .error _ => acc)
      (s, 0))

/-! ### `backend/datasets/tasks.py` — constants and label inference -/

def BATCH_SIZE : Nat := 100
def DEFAULT_SAMPLE_SIZE : Nat := 5
def MAX_SAMPLE_IDS : Nat := 10

/-- A parsed CSV row as `parse_csv` / `DictReader` delivers it: header keys in
order, `none` for an originally empty cell, other values stripped. -/
abbrev Row := List (String × Option String)

def rowGet (row : Row) (k : String) : Option (Option String) :=
  (row.find? (·.1 = k)).map (·.2)

def pyUpper (s : String) : String := ⟨s.data.map Char.toUpper⟩

/-- `RELATIONSHIP_PATTERNS`, in dict insertion order. -/
def RELATIONSHIP_PATTERNS : List (String × String × String) :=
  [("PURCHASED", "Customer", "Product"),
   ("BUY", "Customer", "Product"),
   ("ORDER", "Customer", "Product"),
   ("FOLLOWS", "User", "User"),
   ("FOLLOW", "User", "User"),
   ("IN_CATEGORY", "Product", "Category"),
   ("CATEGORY", "Product", "Category"),
   ("VIEWED", "Customer", "Product"),
   ("VIEW", "Customer", "Product"),
   ("AUTHORED", "User", "Post"),
   ("AUTHOR", "User", "Post"),
   ("COMMENTED", "User", "Comment"),
   ("COMMENT", "User", "Comment")]

/-- The pattern loop of `infer_labels_from_relationship_type`: case-insensitive
substring match against the table, exact label pair first, then the
`User → Customer` alias substitutions, else the next pattern. -/
def inferGo (relUpper : String) (avail : List String) :
    List (String × String × String) → Option (String × String)
  | [] => none
  | (pat, ds, dt) :: rest =>
    if strContains relUpper pat then
      if avail.contains ds && avail.contains dt then some (ds, dt)
      else
        let r1 : Option (String × String) :=
          if ds = "User" && avail.contains "Customer" then
            if dt = "User" && avail.contains "Customer" then
              some ("Customer", "Customer")
            else if avail.contains dt then some ("Customer", dt)
            else none
          else none
        match r1 with
        | some p => some p
        | none =>
          let r2 : Option (String × String) :=
            if ds = "User" && avail.contains "Customer" then
              if dt = "Post" && avail.contains "Post" then
                some ("Customer", "Post")
              else if dt = "Comment" && avail.contains "Comment" then
                some ("Customer", "Comment")
              else none
            else none
          match r2 with
          | some p => some p
          | none => inferGo relUpper avail rest
    else inferGo relUpper avail rest

/-- `infer_labels_from_relationship_type`. -/
def inferLabelsFromRelationshipType (relationshipType : Option String)
    (availableLabels : List String) : Option String × Option String :=
  if ¬ truthy relationshipType then (none, none)
  else
    match inferGo (pyUpper (relationshipType.getD "")) availableLabels
        RELATIONSHIP_PATTERNS with
    | some (a, b) => (some a, some b)
    | none => (none, none)

/-- Python `str(x)` on a property value (used in the skip-warning messages). -/
def pvalStr : PVal → String
  | .vint i => toString i
  | .vstr s => s
  | .vbool b => if b then "True" else "False"
  | .vfloat raw => raw
  | .vnull => "None"

/-- Python `str(x)` on an optional string (f-string of a possibly-`None`
field). -/
def optStr : Option String → String
  | none => "None"
  | some s => s

/-- Outcome of the label-resolution segment: either the task fails with the
recorded error message, or processing continues with a resolved label pair. -/
inductive LabelResolution where
  | failed (message : String)
  | resolved (sourceLabel targetLabel : String)
deriving DecidableEq, Repr

/-- Whether the resolution segment ended the task in failure. -/
def LabelResolution.isFailed : LabelResolution → Bool
  | .failed _ => true
  | .resolved _ _ => false

/-- The distinct sampled id values for a `source_id` / `target_id` column:
first `DEFAULT_SAMPLE_SIZE` rows, truthy values of the matching columns.
The source accumulates them in a Python `set` whose iteration order is
unspecified; first-occurrence order stands in for it (the code below is
unreachable from `resolveRelLabels`, see `C3`). -/
def sampleIdsFor (colName : String) (data : List Row) : List String :=
  ((data.take (min DEFAULT_SAMPLE_SIZE data.length)).foldl
    (fun (acc : List String) row =>
      row.foldl
        (fun acc2 kv =>
          if lowerStrip kv.1 = colName && truthy kv.2 then
            let v := (kv.2).getD ""
            if acc2.contains v then acc2 else acc2 ++ [v]
          else acc2)
        acc)
    [])

/-- `int(id)`-or-keep coercion of a sampled id. -/
def coerceSampleId (s : String) : PVal :=
  match pyIntParse s with
  | some i => .vint i
  | none => .vstr s

/-- `max(label_counts.items(), key=…)`: the first label (dict = `node_labels`
order) attaining the maximal count. -/
def bestLabelByCount (counts : List (String × Nat)) : Option (String × Nat) :=
  counts.foldl
    (fun (acc : Option (String × Nat)) c =>
      match acc with
      | none => some c
      | some b => if c.2 > b.2 then some c else some b)
    none

/-- The ID-matching strategy for one side: tally, per known label, how many of
the sampled ids exist under it (scoped to the dataset), and keep the label
with the most hits when positive and the side is still unset. -/
def idMatchLabel {σ : Type} (existsIdWithLabel : σ → String → PVal → Bool)
    (s : σ) (nodeLabels : List String) (sampleIds : List String)
    (current : Option String) : Option String :=
  if sampleIds = [] then current
  else
    let testIds := (sampleIds.take MAX_SAMPLE_IDS).map coerceSampleId
    if testIds = [] then current
    else
      let labelCounts := nodeLabels.map (fun label =>
        (label, testIds.countP (fun id => existsIdWithLabel s label id)))
      match bestLabelByCount labelCounts with
      | some (bestLabel, bestCount) =>
        if bestCount > 0 && ¬ truthy current then some bestLabel else current
      | none => current

/-- Lines 488–620 of `process_relationship_csv_task`: pattern inference, the
single-label shortcut, sampled ID matching and the final fallback defaults.
Unreachable from `resolveRelLabels` (the missing-label case has already
returned); embedded for completeness.  An empty `nodeLabels` list makes the
fallback's `node_labels[0]` raise `IndexError`, failing the task via the
outer handler. -/
def resolveByInference {σ : Type} (existsIdWithLabel : σ → String → PVal → Bool)
    (sourceLabel targetLabel : Option String) (nodeLabels : List String)
    (relationshipType : Option String) (data : List Row) (s : σ) :
    LabelResolution :=
  let inferred :=
    if ¬ truthy sourceLabel || ¬ truthy targetLabel then
      match inferLabelsFromRelationshipType relationshipType nodeLabels with
      | (some a, some b) => (some a, some b)
      | _ => (sourceLabel, targetLabel)
    else (sourceLabel, targetLabel)
  let sl := inferred.1
  let tl := inferred.2
  let afterMatch : Option String × Option String :=
    if ¬ truthy sl || ¬ truthy tl then
      match nodeLabels with
      | [only] => (some only, some only)
      | _ =>
        let srcSample := sampleIdsFor "source_id" data
        let tgtSample := sampleIdsFor "target_id" data
        let sl' := idMatchLabel existsIdWithLabel s nodeLabels srcSample sl
        let tl' := idMatchLabel existsIdWithLabel s nodeLabels tgtSample tl
        (sl', tl')
    else (sl, tl)
  let sl := afterMatch.1
  let tl := afterMatch.2
  match nodeLabels with
  | [] =>
    if ¬ truthy sl || ¬ truthy tl then .failed "list index out of range"
    else .resolved (sl.getD "") (tl.getD "")
  | l0 :: lrest =>
    let slF := if ¬ truthy sl then l0 else sl.getD ""
    let tlF :=
      if ¬ truthy tl then
        match lrest with
        | [] => l0
        | l1 :: lrest2 =>
          if l1 ≠ slF then l1
          else match lrest2 with
            | l2 :: _ => l2
            | [] => l0
      else tl.getD ""
    .resolved slF tlF

/-- Lines 438–621 of `process_relationship_csv_task`: determine the source and
target labels for a relationship file.  `sourceLabel` / `targetLabel` are the
task's header-declared fields, `nodeLabels` the labels of the dataset's
completed node uploads. -/
def resolveRelLabels {σ : Type} (existsIdWithLabel : σ → String → PVal → Bool)
    (sourceLabel targetLabel : Option String) (nodeLabels : List String)
    (relationshipType : Option String) (data : List Row) (s : σ) :
    LabelResolution :=
  let missingDecl :=
    (if truthy sourceLabel && ¬ nodeLabels.contains (sourceLabel.getD "") then
      [sourceLabel.getD ""] else []) ++
    (if truthy targetLabel && ¬ nodeLabels.contains (targetLabel.getD "") &&
        ¬ ((if truthy sourceLabel && ¬ nodeLabels.contains (sourceLabel.getD "") then
          [sourceLabel.getD ""] else []).contains (targetLabel.getD "")) then
      [targetLabel.getD ""] else [])
  if (truthy sourceLabel || truthy targetLabel) && missingDecl ≠ [] then
    .failed (strJoin ", " missingDecl ++
      " node(s) not available in dataset. Please upload the corresponding node file(s) first.")
  else if ¬ truthy sourceLabel || ¬ truthy targetLabel then
    .failed ("Missing source or target labels. Source: " ++ optStr sourceLabel ++
      ", Target: " ++ optStr targetLabel)
  else if ¬ truthy sourceLabel || ¬ truthy targetLabel then
    resolveByInference existsIdWithLabel sourceLabel targetLabel nodeLabels
      relationshipType data s
  else
    .resolved (sourceLabel.getD "") (targetLabel.getD "")

/-! ### `process_node_csv_task` — entity batch ingestion -/

/-- The per-cell conversion of the node batch loop (tasks.py 209–237): the ID
column is always `int`-coerced when possible; other cells convert per the
detected type, keeping the raw string when conversion fails; `None` stays
null. -/
def convertNodeValue (idColumn key dataType : String) (v : Option String) :
    PVal :=
  match v with
  | none => .vnull
  | some value =>
    if key = idColumn then
      match pyIntParse value with
      | some i => .vint i
      | none => .vstr value
    else if dataType = "integer" && value ≠ "" then
      match pyIntParse value with
      | some i => .vint i
      | none => .vstr value
    else if dataType = "float" && value ≠ "" then
      (if pyFloatOk value then .vfloat value else .vstr value)
    else if dataType = "boolean" && value ≠ "" then
      .vbool (pyLower value = "true" || pyLower value = "1" || pyLower value = "yes")
    else .vstr value

/-- Build one node's property map (tasks.py 209–242): convert every cell and
stamp the dataset tag. -/
def prepNodeProps (idColumn : String) (dataTypes : String → String)
    (datasetId : Int) (row : Row) : Props :=
  let base := row.foldl
    (fun p kv => propSet p kv.1 (convertNodeValue idColumn kv.1 (dataTypes kv.1) kv.2))
    []
  propSet base "dataset_id" (.vint datasetId)

/-- The entity batch loop (tasks.py 202–284), generic over the store state.
Returns `(store, nodesCreated, processedRows, error?)`; a failing batch
aborts with the formatted message, leaving the remaining batches
unexecuted. -/
def runNodeBatches {σ : Type} (exec : σ → List Props → Except String (σ × Nat))
    (prep : Row → Props) :
    List (List Row) → Nat → σ → Nat → Nat → σ × Nat × Nat × Option String
  | [], _, s, created, processed => (s, created, processed, none)
  | batch :: rest, batchNum, s, created, processed =>
    let props := batch.map prep
    match exec s props with
    | .ok (s', n) =>
      runNodeBatches exec prep rest (batchNum + 1) s' (created + n)
        (processed + batch.length)
    | .error e =>
      (s, created, processed,
        some ("Error processing batch " ++ toString (batchNum + 1) ++ ": " ++ e))

/-- `val = row.get(id_column); if val is not None: ids_in_file.append(int(val)
or val)` — the identifier set of the just-ingested file (tasks.py 292–299). -/
def idsInFileOf (idColumn : String) (data : List Row) : List PVal :=
  data.foldr
    (fun row acc =>
      match rowGet row idColumn with
      | some (some v) =>
        (match pyIntParse v with
         | some i => PVal.vint i
         | none => PVal.vstr v) :: acc
      | _ => acc)
    []

structure NodeTaskOutcome (σ : Type) where
  store : σ
  status : String
  errorMessage : Option String
  nodesCreated : Nat
  nodesDeleted : Nat
  processedRows : Nat
deriving DecidableEq, Repr

/-- The core of `process_node_csv_task` after validation and parsing
(tasks.py 198–328), generic over the store: run the batches, then — when the
task's label is set and the dataset has `cascade_delete` — sync the store to
the file by deleting every entity of that label and dataset tag whose id the
file does not contain.  `deleteNotIn` is the store's cascade-delete
operation; it is total here, so the source's warn-and-continue handler
around it has no error path. -/
def processNodeCsvCore {σ : Type}
    (exec : σ → List Props → Except String (σ × Nat))
    (deleteNotIn : σ → List PVal → σ × Nat)
    (cascadeDelete : Bool) (nodeLabel : Option String) (idColumn : String)
    (dataTypes : String → String) (datasetId : Int) (data : List Row)
    (s : σ) : NodeTaskOutcome σ :=
  let chunks := chunkList BATCH_SIZE data
  let r := runNodeBatches exec (prepNodeProps idColumn dataTypes datasetId)
    chunks 0 s 0 0
  match r.2.2.2 with
  | some msg =>
    { store := r.1, status := "failed", errorMessage := some msg,
      nodesCreated := r.2.1, nodesDeleted := 0, processedRows := r.2.2.1 }
  | none =>
    if truthy nodeLabel && idColumn ≠ "" && cascadeDelete then
      let deleted := deleteNotIn r.1 (idsInFileOf idColumn data)
      { store := deleted.1, status := "completed", errorMessage := none,
        nodesCreated := r.2.1, nodesDeleted := deleted.2,
        processedRows := r.2.2.1 }
    else
      { store := r.1, status := "completed", errorMessage := none,
        nodesCreated := r.2.1, nodesDeleted := 0, processedRows := r.2.2.1 }

/-- `process_node_csv_task`'s batch ingestion instantiated at the embedded
graph store: `create_nodes_batch(label=task.node_label or 'Node', …,
unique_id=id_column, batch_size=BATCH_SIZE)` per batch, cascade sync via
`delete_nodes_not_in_set`. -/
def ingestNodeFile (cascadeDelete : Bool) (nodeLabel : Option String)
    (idColumn : String) (dataTypes : String → String) (datasetId : Int)
    (data : List Row) (g : Graph) : NodeTaskOutcome Graph :=
  processNodeCsvCore
    (fun g' batch =>
      createNodesBatch (nodeLabel.getD "Node") batch (some idColumn) BATCH_SIZE g')
    (fun g' ids =>
      deleteNodesNotInSet (nodeLabel.getD "Node") datasetId idColumn ids g')
    cascadeDelete nodeLabel idColumn dataTypes datasetId data g

/-! ### `process_relationship_csv_task` — relationship batch ingestion -/

/-- Extract the row's source / target identifiers (tasks.py 648–675): the
`Label:source_id` format matched against the resolved labels, with the bare
`source_id` / `target_id` columns as the backward-compatible fallback; later
columns overwrite earlier matches. -/
def extractRelIds (sourceLabel targetLabel : String) (row : Row) :
    Option String × Option String :=
  row.foldl
    (fun (acc : Option String × Option String) kv =>
      let key := kv.1
      let value := kv.2
      match splitFirst ':' key.data with
      | some (a, b) =>
        let labelPart := pyStrip ⟨a⟩
        let idPart := pyLower (pyStrip ⟨b⟩)
        if idPart = "source_id" && labelPart = sourceLabel then (value, acc.2)
        else if idPart = "target_id" && labelPart = targetLabel then (acc.1, value)
        else acc
      | none =>
        if lowerStrip key = "source_id" then (value, acc.2)
        else if lowerStrip key = "target_id" then (acc.1, value)
        else acc)
    (none, none)

/-- Identifier coercion for relationship rows (tasks.py 684–702): strip, then
`int` when the text is all digits or a `-`-prefixed digit run; otherwise the
stripped string. -/
def coerceRelId (v : String) : PVal :=
  let s := pyStrip v
  if pyIsDigit s || (s.data.head? = some '-' && pyIsDigit ⟨s.data.tail⟩) then
    match pyIntParse s with
    | some i => .vint i
    | none => .vstr s
  else .vstr s

/-- Relationship property conversion (tasks.py 712–735). -/
def convertRelProp (dataType : String) (v : Option String) : PVal :=
  match v with
  | none => .vnull
  | some value =>
    if value = "" then .vnull
    else if dataType = "integer" then
      match pyIntParse value with
      | some i => .vint i
      | none => .vstr value
    else if dataType = "float" then
      (if pyFloatOk value then .vfloat value else .vstr value)
    else if dataType = "boolean" then
      .vbool (pyLower value = "true" || pyLower value = "1" || pyLower value = "yes")
    else .vstr value

/-- Per-batch row processing (tasks.py 648–774): build the relationship rows
to upsert, skipping — with a per-row warning — rows with a missing / empty
identifier and rows whose source or target node does not exist under the
resolved label and dataset tag.  Returns
`(neo4j_rels, validation_warnings, skipped_count)`.  `existsIdWithLabel`
models the scoped `MATCH … RETURN count` existence probe; it is total, so
the source's probe-error skip path cannot trigger. -/
def processRelBatch {σ : Type} (existsIdWithLabel : σ → String → PVal → Bool)
    (sourceLabel targetLabel : String) (dataTypes : String → String)
    (datasetId : Int) (startIdx : Nat) (batch : List Row) (s : σ) :
    List RelData × List String × Nat :=
  (List.enumFrom (startIdx + 1) batch).foldl
    (fun (acc : List RelData × List String × Nat) idxRow =>
      let rowIdx := idxRow.1
      let row := idxRow.2
      let (rels, warns, skipped) := acc
      let ids := extractRelIds sourceLabel targetLabel row
      if ¬ truthy ids.1 || ¬ truthy ids.2 then
        (rels, warns ++ ["Row " ++ toString rowIdx ++ ": Missing source_id or target_id"],
          skipped + 1)
      else
        let sid := coerceRelId (ids.1.getD "")
        let tid := coerceRelId (ids.2.getD "")
        let props := row.foldl
          (fun p kv =>
            if lowerStrip kv.1 = "source_id" || lowerStrip kv.1 = "target_id" then p
            else propSet p kv.1 (convertRelProp (dataTypes kv.1) kv.2))
          []
        if ¬ existsIdWithLabel s sourceLabel sid then
          (rels, warns ++ ["Row " ++ toString rowIdx ++ ": Source node " ++
            sourceLabel ++ ":" ++ pvalStr sid ++ " does not exist"], skipped + 1)
        else if ¬ existsIdWithLabel s targetLabel tid then
          (rels, warns ++ ["Row " ++ toString rowIdx ++ ": Target node " ++
            targetLabel ++ ":" ++ pvalStr tid ++ " does not exist"], skipped + 1)
        else
          (rels ++ [⟨sid, tid, propSet props "dataset_id" (.vint datasetId)⟩],
            warns, skipped))
    ([], [], 0)

/-- The relationship batch loop (tasks.py 638–824).  `lastWarns` mirrors the
`validation_warnings` local, freshly rebuilt at every batch iteration; the
returned warning list is therefore the final batch's alone.  Returns
`(store, relationshipsCreated, lastWarnings, error?, processedRows)`. -/
def runRelBatches {σ : Type} (existsIdWithLabel : σ → String → PVal → Bool)
    (acquire : Except String Unit)
    (runQuery : σ → List RelData → Except String (σ × Nat))
    (sourceLabel targetLabel : String) (dataTypes : String → String)
    (datasetId : Int) :
    List (List Row) → Nat → Nat → σ → Nat → List String →
    σ × Nat × List String × Option String × Nat
  | [], _, startIdx, s, created, lastWarns =>
    (s, created, lastWarns, none, startIdx)
  | batch :: rest, batchNum, startIdx, s, created, _lastWarns =>
    let pr := processRelBatch existsIdWithLabel sourceLabel targetLabel
      dataTypes datasetId startIdx batch s
    let rels := pr.1
    let warns := pr.2.1
    let execResult : Except String (σ × Nat) :=
      if rels.isEmpty then .ok (s, 0)
      else createRelationshipsBatch acquire runQuery BATCH_SIZE rels s
    match execResult with
    | .error e =>
      (s, created, warns,
        some ("Error processing batch " ++ toString (batchNum + 1) ++ ": " ++ e),
        startIdx)
    | .ok (s', n) =>
      runRelBatches existsIdWithLabel acquire runQuery sourceLabel targetLabel
        dataTypes datasetId rest (batchNum + 1) (startIdx + batch.length) s'
        (created + n) warns

structure RelTaskOutcome (σ : Type) where
  store : σ
  status : String
  errorMessage : Option String
  relationshipsCreated : Nat
  validationWarnings : List String
  processedRows : Nat
deriving DecidableEq, Repr

/-- The core of `process_relationship_csv_task` after validation, parsing and
label resolution (tasks.py 416–438 empty-file check, 626–838): optional
cascade replacement of the relationship type (`deleteRelsOfType` stands for
`delete_relationships_of_type_for_dataset`, invoked by the task but not
defined under the sources), the batch loop, and — on completion — retention
of the (final batch's) warnings capped at 100.  A batch-execution failure
leaves the task failed with the formatted message and the warning list
unsaved (the model's empty default). -/
def processRelationshipCore {σ : Type}
    (existsIdWithLabel : σ → String → PVal → Bool)
    (acquire : Except String Unit)
    (runQuery : σ → List RelData → Except String (σ × Nat))
    (cascadeDelete : Bool) (deleteRelsOfType : σ → σ)
    (sourceLabel targetLabel : String) (dataTypes : String → String)
    (datasetId : Int) (data : List Row) (s : σ) : RelTaskOutcome σ :=
  if data.isEmpty then
    { store := s, status := "failed", errorMessage := some "Empty file",
      relationshipsCreated := 0, validationWarnings := [], processedRows := 0 }
  else
    let s1 := if cascadeDelete then deleteRelsOfType s else s
    let chunks := chunkList BATCH_SIZE data
    let r := runRelBatches existsIdWithLabel acquire runQuery sourceLabel
      targetLabel dataTypes datasetId chunks 0 0 s1 0 []
    match r.2.2.2.1 with
    | some msg =>
      { store := r.1, status := "failed", errorMessage := some msg,
        relationshipsCreated := r.2.1, validationWarnings := [],
        processedRows := r.2.2.2.2 }
    | none =>
      { store := r.1, status := "completed", errorMessage := none,
        relationshipsCreated := r.2.1,
        validationWarnings :=
          (if r.2.2.1.isEmpty then [] else r.2.2.1.take 100),
        processedRows := r.2.2.2.2 }

/-! ## Shared helper definitions for the theorems -/

/-- The validator's column-count mismatch error text. -/
def mismatchMsg (rowNum actual expected : Nat) : String :=
  "Row " ++ toString rowNum ++
    ": All rows must have the same number of columns (" ++
    toString actual ++ " vs " ++ toString expected ++ ")"

/-- The `Label:source_id, Label:target_id`-format relationship file of the
spec's end-to-end example. -/
def labelPrefixedRelFile : List (List String) :=
  [["Person:source_id", "Person:target_id", "since"],
   ["1", "2", "2024-01-01"]]

/-- A valid relationship row (old bare-column format). -/
def relRowGood (i : Nat) : Row :=
  [("source_id", some (toString i)), ("target_id", some (toString (i + 1)))]

/-- A relationship row with an empty source identifier. -/
def relRowNoSource : Row :=
  [("source_id", none), ("target_id", some "2")]

/-- 101 rows — two ingestion batches — whose first row is skipped for a
missing identifier. -/
def warnLossInput : List Row :=
  relRowNoSource :: (List.range 100).map (fun i => relRowGood (i + 2))

/-- 101 rows with a skipped row in each of the two batches (rows 1 and 101). -/
def warnLastBatchInput : List Row :=
  relRowNoSource :: ((List.range 99).map (fun i => relRowGood (i + 2)) ++
    [relRowNoSource])

/-! ## Theorems -/

/-- C4: the validator's header classification recognises only the bare
`source_id` / `target_id` columns, not the declared-label-prefixed variants:
the relationship file `Person:source_id,Person:target_id,since` is classified
node-kind, fails with the missing-`id` error and is not valid — while the
bare-column header is classified relationship-kind and the same file
validates.  This contradicts the spec's classification rule and its
end-to-end example. -/
theorem label_prefixed_relationship_header_rejected :
    (validateRequiredColumns ["Person:source_id", "Person:target_id", "since"]).1
      = false ∧
    (validateRelationshipCSV labelPrefixedRelFile).1 = false ∧
    (validateRelationshipCSV labelPrefixedRelFile).2.1
      = ["For node files required fields: id"] ∧
    (validateRequiredColumns ["source_id", "target_id", "since"]).1 = true ∧
    (validateRelationshipCSV
      [["source_id", "target_id", "since"], ["1", "2", "2024-01-01"]]).1 = true := by
  decide

/-- C10: `detect_file_type` answers `"relationship"` exactly when the
lower-cased, trimmed first row contains both `source_id` and `target_id`;
every other case — one of the two columns alone, a missing header, any read
error — yields `"node"` (total function, no exception escapes).  A header the
validator classifies relationship-kind from a lone `source_id` or
`target_id` is therefore routed as a node file at upload time. -/
theorem detect_file_type_requires_both_ids (e : String) (header : List String) :
    detectFileType (.error e) = "node" ∧
    detectFileType (.ok none) = "node" ∧
    (detectFileType (.ok (some header)) = "relationship" ↔
      (header.map lowerStrip).contains "source_id" = true ∧
      (header.map lowerStrip).contains "target_id" = true) ∧
    ((header.map lowerStrip).contains "source_id" = true →
      (header.map lowerStrip).contains "target_id" = false →
      (validateRequiredColumns header).1 = true ∧
      detectFileType (.ok (some header)) = "node") ∧
    ((header.map lowerStrip).contains "target_id" = true →
      (header.map lowerStrip).contains "source_id" = false →
      (validateRequiredColumns header).1 = true ∧
      detectFileType (.ok (some header)) = "node") := by
  have hopt : ∀ h2 : List String, ¬ h2.isEmpty = true →
      detectFileType (.ok (some h2)) =
        (if (h2.map lowerStrip).contains "source_id" &&
            (h2.map lowerStrip).contains "target_id" then
          "relationship" else "node") := by
    intro h2 hemp
    simp only [detectFileType]
    rw [if_neg hemp]
  refine ⟨rfl, rfl, ?_, ?_, ?_⟩
  · by_cases hemp : header.isEmpty = true
    · have : header = [] := List.isEmpty_iff.mp hemp
      subst this
      decide
    · rw [hopt header hemp]
      cases hs : (header.map lowerStrip).contains "source_id" <;>
        cases ht : (header.map lowerStrip).contains "target_id" <;>
          simp
  · intro hs ht
    have hemp : ¬ header.isEmpty = true := by
      rcases header with _ | ⟨c, cs⟩
      · exact absurd hs (by decide)
      · simp
    refine ⟨?_, ?_⟩
    · simp only [validateRequiredColumns]
      rw [hs, ht]
      rfl
    · rw [hopt header hemp, hs, ht]
      rfl
  · intro ht hs
    have hemp : ¬ header.isEmpty = true := by
      rcases header with _ | ⟨c, cs⟩
      · exact absurd ht (by decide)
      · simp
    refine ⟨?_, ?_⟩
    · simp only [validateRequiredColumns]
      rw [hs, ht]
      rfl
    · rw [hopt header hemp, hs, ht]
      rfl

/-- `_detect_column_type` with the empty-list branch discharged. -/
theorem detectColumnType_eq_of_ne_nil (values : List String) (h : ¬ values = []) :
    detectColumnType values =
      (if (values.take TYPE_DETECTION_SAMPLE_SIZE).all isIntegerStr then "integer"
       else if (values.take TYPE_DETECTION_SAMPLE_SIZE).all isFloatStr then "float"
       else if (values.take TYPE_DETECTION_SAMPLE_SIZE).all isBooleanStr then "boolean"
       else if (values.take TYPE_DETECTION_SAMPLE_SIZE).all isDateStr then "date"
       else if (values.take TYPE_DETECTION_SAMPLE_SIZE).all isDatetimeStr then "datetime"
       else "string") := by
  simp only [detectColumnType]
  rw [if_neg h]

/-- The tail of the inference cascade never answers `"integer"` once the
integer test failed. -/
theorem detect_shape_ne_integer (b1 b2 b3 b4 b5 : Bool) (h : b1 = false) :
    (if b1 then "integer" else if b2 then "float" else if b3 then "boolean"
     else if b4 then "date" else if b5 then "datetime" else "string")
      ≠ ("integer" : String) := by
  subst h
  cases b2 <;> cases b3 <;> cases b4 <;> cases b5 <;> decide

/-- A single failing element falsifies `List.all`. -/
theorem all_eq_false_of_mem {α : Type} {p : α → Bool} {l : List α} {v : α}
    (hv : v ∈ l) (h : p v = false) : l.all p = false := by
  cases hall : l.all p
  · rfl
  · have := List.all_eq_true.mp hall v hv
    rw [h] at this
    exact absurd this (by decide)

/-- C7: column type inference samples the first 100 non-null values and
assigns the first class — in the fixed order integer, float, boolean, date,
datetime, string — for which every sampled value parses; a single failing
sample demotes past the class.  The five example columns of the spec infer
integer, float, boolean, date and string respectively. -/
theorem type_inference_precedence_and_examples :
    detectColumnType ["1", "2", "3"] = "integer" ∧
    detectColumnType ["1", "2.5"] = "float" ∧
    detectColumnType ["true", "0"] = "boolean" ∧
    detectColumnType ["2024-01-01", "2024-02-15"] = "date" ∧
    detectColumnType ["abc", "1"] = "string" ∧
    (∀ values : List String,
      detectColumnType values =
        detectColumnType (values.take TYPE_DETECTION_SAMPLE_SIZE)) ∧
    (∀ values : List String, values ≠ [] →
      (values.take TYPE_DETECTION_SAMPLE_SIZE).all isIntegerStr = true →
      detectColumnType values = "integer") ∧
    (∀ values : List String, ∀ v ∈ values.take TYPE_DETECTION_SAMPLE_SIZE,
      isIntegerStr v = false → detectColumnType values ≠ "integer") ∧
    (∀ values : List String, ∀ v ∈ values.take TYPE_DETECTION_SAMPLE_SIZE,
      isIntegerStr v = false → isFloatStr v = false → isBooleanStr v = false →
      isDateStr v = false → isDatetimeStr v = false →
      detectColumnType values = "string") := by
  refine ⟨by decide, by decide, by decide, by decide, by decide, ?_, ?_, ?_, ?_⟩
  · intro values
    by_cases h : values = []
    · subst h; rfl
    · have htne : values.take TYPE_DETECTION_SAMPLE_SIZE ≠ [] := by
        rcases values with _ | ⟨c, cs⟩
        · exact absurd rfl h
        · exact List.cons_ne_nil _ _
      rw [detectColumnType_eq_of_ne_nil values h,
        detectColumnType_eq_of_ne_nil _ htne, List.take_take, Nat.min_self]
  · intro values h hall
    rw [detectColumnType_eq_of_ne_nil values h, if_pos hall]
  · intro values v hv hfail
    have hne : values ≠ [] := by
      rintro rfl
      simp at hv
    have hall := all_eq_false_of_mem hv hfail
    rw [detectColumnType_eq_of_ne_nil values hne]
    exact detect_shape_ne_integer _ _ _ _ _ hall
  · intro values v hv h1 h2 h3 h4 h5
    have hne : values ≠ [] := by
      rintro rfl
      simp at hv
    rw [detectColumnType_eq_of_ne_nil values hne,
      all_eq_false_of_mem hv h1, all_eq_false_of_mem hv h2,
      all_eq_false_of_mem hv h3, all_eq_false_of_mem hv h4,
      all_eq_false_of_mem hv h5]
    rfl

/-- C8 counterexample: the column `["2024-01-01", "01/15/2024"]` has no single
format that parses both values — the dash format rejects the second, every
slash format rejects the first — yet it is typed `date`, not `string` as the
claim states. -/
theorem mixed_format_date_column_cex :
    detectColumnType ["2024-01-01", "01/15/2024"] = "date" ∧
    ("date" : String) ≠ "string" ∧
    dateYMDdash "2024-01-01".data = true ∧
    dateYMDdash "01/15/2024".data = false ∧
    dateMDYslash "01/15/2024".data = true ∧
    dateMDYslash "2024-01-01".data = false ∧
    dateDMYslash "2024-01-01".data = false ∧
    dateYMDslash "2024-01-01".data = false := by
  decide

/-- C8 (amended): `_is_date` accepts a value when *any* of the four fixed
formats parses that single value, independently per value; a column whose
sampled values each parse under some (possibly different) format — after
integer, float and boolean inference all failed — is typed `date`.  Mixed
ISO / slash-separated columns are therefore typed `date`, not `string`. -/
theorem date_inference_per_value_any_format (values : List String)
    (hne : values ≠ [])
    (hint : (values.take TYPE_DETECTION_SAMPLE_SIZE).all isIntegerStr = false)
    (hfloat : (values.take TYPE_DETECTION_SAMPLE_SIZE).all isFloatStr = false)
    (hbool : (values.take TYPE_DETECTION_SAMPLE_SIZE).all isBooleanStr = false)
    (hdate : (values.take TYPE_DETECTION_SAMPLE_SIZE).all isDateStr = true) :
    detectColumnType values = "date" ∧
    (∀ v : String, isDateStr v =
      (dateYMDdash v.data || dateMDYslash v.data || dateDMYslash v.data ||
        dateYMDslash v.data)) ∧
    detectColumnType ["2024-01-01", "01/15/2024"] = "date" := by
  refine ⟨?_, fun v => rfl, by decide⟩
  rw [detectColumnType_eq_of_ne_nil values hne, hint, hfloat, hbool, hdate]
  rfl

/-- C8 (amended) witness at the mixed-format column. -/
theorem date_inference_per_value_any_format_witness :
    detectColumnType ["2024-01-01", "01/15/2024"] = "date" :=
  (date_inference_per_value_any_format ["2024-01-01", "01/15/2024"]
    (by decide) (by decide) (by decide) (by decide) (by decide)).1

/-- C3 counterexample: with no header-declared labels, a relationship type
(`PURCHASED`) the pattern table resolves to a usable pair over the known
labels `Customer`, `Product`, the task nevertheless fails outright with the
missing-labels error instead of trying the later strategies. -/
theorem label_resolution_fails_outright_cex :
    resolveRelLabels (σ := Unit) (fun _ _ _ => true) none none
      ["Customer", "Product"] (some "PURCHASED") [] () =
      .failed "Missing source or target labels. Source: None, Target: None" ∧
    inferLabelsFromRelationshipType (some "PURCHASED") ["Customer", "Product"] =
      (some "Customer", some "Product") := by
  decide

/-- A relationship task run against a store whose every batch query raises. -/
def swallowedOutcome : RelTaskOutcome Unit :=
  processRelationshipCore (σ := Unit) (fun _ _ _ => true) (.ok ())
    (fun _ _ => .error "Connection refused") false id "Person" "Person"
    (fun _ => "string") 1 [relRowGood 1] ()

/-- C5 counterexample: an exception raised by the graph store while executing
a relationship batch query is caught inside `create_relationships_batch`
(`continue`), so the task neither fails nor records the message — it
completes with zero relationships created. -/
theorem relationship_batch_error_swallowed_cex :
    swallowedOutcome.status = "completed" ∧
    swallowedOutcome.errorMessage = none ∧
    swallowedOutcome.relationshipsCreated = 0 ∧
    createRelationshipsBatch (σ := Unit) (.ok ())
      (fun _ _ => .error "Connection refused") BATCH_SIZE
      [⟨.vint 1, .vint 2, [("dataset_id", .vint 1)]⟩] () = .ok ((), 0) :=
  ⟨by decide, by decide, by decide, by rfl⟩

/-- `Person` id 1 as ingested under dataset tag 1. -/
def collisionPropsA : Props :=
  [("id", .vint 1), ("name", .vstr "A"), ("dataset_id", .vint 1)]

/-- `Person` id 1 as re-ingested under dataset tag 2. -/
def collisionPropsB : Props :=
  [("id", .vint 1), ("name", .vstr "B"), ("dataset_id", .vint 2)]

/-- C2 counterexample: the node upsert merges on `(label, identifier)` alone —
`MERGE (n:Person {id: node.id})` — so upserting `Person` id 1 under dataset
tag 2 matches and fully overwrites the `Person` id 1 ingested under dataset
tag 1: the two entities collide and dataset 1's entity is gone. -/
theorem upsert_cross_dataset_collision_cex :
    createNodesBatch "Person" [collisionPropsA] (some "id") 1000 Graph.empty =
      .ok (⟨1, [⟨0, "Person", collisionPropsA⟩], []⟩, 1) ∧
    createNodesBatch "Person" [collisionPropsB] (some "id") 1000
        ⟨1, [⟨0, "Person", collisionPropsA⟩], []⟩ =
      .ok (⟨1, [⟨0, "Person", collisionPropsB⟩], []⟩, 1) ∧
    (⟨1, [⟨0, "Person", collisionPropsB⟩], []⟩ : Graph).nodes.length = 1 ∧
    ∀ n ∈ (⟨1, [⟨0, "Person", collisionPropsB⟩], []⟩ : Graph).nodes,
      propGet n.props "dataset_id" ≠ some (.vint 1) :=
  ⟨by rfl, by rfl, by decide, by decide⟩

/-- Chunking the empty list gives no chunks, whatever the fuel. -/
theorem chunkListGo_nil {α : Type} (n fuel : Nat) :
    chunkListGo n fuel ([] : List α) = [] := by
  cases fuel <;> rfl

/-- A nonempty list short enough for one batch forms a single chunk. -/
theorem chunkList_eq_single {α : Type} (n : Nat) (l : List α) (hn : n ≠ 0)
    (hne : l ≠ []) (hlen : l.length ≤ n) : chunkList n l = [l] := by
  rcases l with _ | ⟨x, xs⟩
  · exact absurd rfl hne
  · show chunkListGo n (xs.length + 1) (x :: xs) = [x :: xs]
    rw [chunkListGo, if_neg hn, List.take_of_length_le hlen,
      List.drop_eq_nil_of_le hlen, chunkListGo_nil]

/-- Either way round an `if`, a failure outcome is a failure outcome. -/
theorem isFailed_ite (c : Prop) [Decidable c] (a b : String) :
    (if c then LabelResolution.failed a else LabelResolution.failed b).isFailed
      = true := by
  by_cases h : c <;> simp [h, LabelResolution.isFailed]

/-- C3 (amended): when the task reaches label resolution without both labels
declared (and known), it fails immediately — the later strategies are never
consulted; a declared pair of known labels resolves to itself. -/
theorem label_resolution_requires_declared_labels (σ : Type) :
    (∀ (oracle : σ → String → PVal → Bool) (targetLabel : Option String)
        (nodeLabels : List String) (relType : Option String)
        (data : List Row) (s : σ),
      (resolveRelLabels oracle none targetLabel nodeLabels relType data s).isFailed
        = true) ∧
    (∀ (oracle : σ → String → PVal → Bool) (sourceLabel : Option String)
        (nodeLabels : List String) (relType : Option String)
        (data : List Row) (s : σ),
      (resolveRelLabels oracle sourceLabel none nodeLabels relType data s).isFailed
        = true) ∧
    (∀ (oracle : σ → String → PVal → Bool) (sl tl : String)
        (nodeLabels : List String) (relType : Option String)
        (data : List Row) (s : σ),
      sl ≠ "" → tl ≠ "" → nodeLabels.contains sl = true →
      nodeLabels.contains tl = true →
      resolveRelLabels oracle (some sl) (some tl) nodeLabels relType data s =
        .resolved sl tl) := by
  refine ⟨?_, ?_, ?_⟩
  · intro oracle tl labels rt data s
    rcases tl with _ | t
    · rfl
    · by_cases ht : t = ""
      · subst ht; rfl
      · have htt : truthy (some t) = true := by simp [truthy, ht]
        by_cases hc : labels.contains t = true
        · simp [resolveRelLabels, truthy, htt, hc]
          apply isFailed_ite
        · simp [resolveRelLabels, truthy, htt, hc]
          apply isFailed_ite
  · intro oracle sl labels rt data s
    rcases sl with _ | u
    · rfl
    · by_cases hu : u = ""
      · subst hu; rfl
      · have htu : truthy (some u) = true := by simp [truthy, hu]
        by_cases hc : labels.contains u = true
        · simp [resolveRelLabels, truthy, htu, hc]
          apply isFailed_ite
        · simp [resolveRelLabels, truthy, htu, hc]
          apply isFailed_ite
  · intro oracle sl tl labels rt data s hsl htl hcs hct
    have hts : truthy (some sl) = true := by simp [truthy, hsl]
    have htt : truthy (some tl) = true := by simp [truthy, htl]
    have hmem1 : sl ∈ labels := by simpa using hcs
    have hmem2 : tl ∈ labels := by simpa using hct
    simp only [resolveRelLabels, hts, htt, Option.getD]
    simp [hmem1, hmem2]

/-- The relationship task run on 101 rows (two batches) whose first row is
skipped for a missing identifier, against an always-succeeding store. -/
def warnLossOutcome : RelTaskOutcome Unit :=
  processRelationshipCore (σ := Unit) (fun _ _ _ => true) (.ok ())
    (fun _ b => .ok ((), b.length)) false id "P" "P" (fun _ => "string") 1
    warnLossInput ()

/-- The same task with a skipped row in each of the two batches. -/
def warnLastBatchOutcome : RelTaskOutcome Unit :=
  processRelationshipCore (σ := Unit) (fun _ _ _ => true) (.ok ())
    (fun _ b => .ok ((), b.length)) false id "P" "P" (fun _ => "string") 1
    warnLastBatchInput ()

/-- C6 counterexample: in a 101-row file whose first row is skipped (missing
identifier), the skip warning is recorded while processing batch 1, yet the
completed task retains no warnings at all — the list is rebuilt at each batch
and only the final batch's (empty) list survives. -/
theorem warning_retention_across_batches_cex :
    warnLossOutcome.status = "completed" ∧
    warnLossOutcome.relationshipsCreated = 100 ∧
    (processRelBatch (σ := Unit) (fun _ _ _ => true) "P" "P" (fun _ => "string")
      1 0 (warnLossInput.take BATCH_SIZE) ()).2.1 =
      ["Row 1: Missing source_id or target_id"] ∧
    warnLossOutcome.validationWarnings = [] := by
  exact ⟨by decide, by decide, by decide, by decide⟩

/-- C6 (amended): per-row skip warnings are recorded and the retained list is
capped at 100 entries, but the list is rebuilt at every batch, so on
completion only the final batch's warnings survive: for a file of at most
one batch (≤ 100 rows) every skip warning is retained (up to the cap), while
in a two-batch file with skips in both batches only the second batch's
warning remains. -/
theorem rel_warnings_last_batch_only {σ : Type}
    (existsId : σ → String → PVal → Bool)
    (runQueryF : σ → List RelData → σ × Nat) (sl tl : String)
    (dataTypes : String → String) (datasetId : Int) (data : List Row) (s : σ)
    (hne : data ≠ []) (hlen : data.length ≤ BATCH_SIZE) :
    (processRelationshipCore existsId (.ok ())
        (fun s' b => .ok (runQueryF s' b)) false id sl tl dataTypes datasetId
        data s).validationWarnings =
      (processRelBatch existsId sl tl dataTypes datasetId 0 data s).2.1.take 100 ∧
    warnLastBatchOutcome.validationWarnings =
      ["Row 101: Missing source_id or target_id"] := by
  constructor
  · have hch : chunkList BATCH_SIZE data = [data] :=
      chunkList_eq_single _ _ (by decide) hne hlen
    have hdne : data.isEmpty = false := by
      rcases data with _ | ⟨x, xs⟩
      · exact absurd rfl hne
      · rfl
    simp only [processRelationshipCore, hdne, Bool.false_eq_true, if_false, hch]
    have hexec : ∀ (rels : List RelData) (s0 : σ),
        ∃ p, (if rels.isEmpty then Except.ok (s0, 0)
          else createRelationshipsBatch (.ok ())
            (fun s' b => .ok (runQueryF s' b)) BATCH_SIZE rels s0) =
          Except.ok p := by
      intro rels s0
      by_cases h : rels.isEmpty
      · exact ⟨(s0, 0), by rw [if_pos h]⟩
      · exact ⟨_, by rw [if_neg h]; rfl⟩
    obtain ⟨p, hp⟩ := hexec
      (processRelBatch existsId sl tl dataTypes datasetId 0 data s).1 s
    simp only [runRelBatches, hp]
    rcases hw : (processRelBatch existsId sl tl dataTypes datasetId 0 data s).2.1
      with _ | ⟨w, ws⟩
    · simp
    · simp
  · decide

/-- C5 (amended): the two ingestion paths treat a failing store batch
differently.  Entity ingestion is fail-fast: an exception from a batch
aborts the loop at once — the task is failed with the formatted message, the
state and counters stop at the failing batch and no later batch runs.
Relationship ingestion is not: `create_relationships_batch` catches any
exception of a batch query and continues, so (once the session is acquired)
it always returns successfully and the task completes. -/
theorem entity_batch_abort_vs_relationship_batch_skip (σ : Type) :
    (∀ (exec : σ → List Props → Except String (σ × Nat)) (prep : Row → Props)
        (batch : List Row) (rest : List (List Row)) (batchNum : Nat) (s : σ)
        (created processed : Nat) (e : String),
      exec s (batch.map prep) = .error e →
      runNodeBatches exec prep (batch :: rest) batchNum s created processed =
        (s, created, processed,
          some ("Error processing batch " ++ toString (batchNum + 1) ++ ": " ++ e))) ∧
    (∀ (exec : σ → List Props → Except String (σ × Nat))
        (deleteNotIn : σ → List PVal → σ × Nat) (cascade : Bool)
        (nodeLabel : Option String) (idColumn : String)
        (dataTypes : String → String) (datasetId : Int) (data : List Row)
        (s : σ) (e : String),
      (∀ s' b, exec s' b = .error e) → data ≠ [] →
      (processNodeCsvCore exec deleteNotIn cascade nodeLabel idColumn dataTypes
          datasetId data s).status = "failed" ∧
      (processNodeCsvCore exec deleteNotIn cascade nodeLabel idColumn dataTypes
          datasetId data s).errorMessage =
        some ("Error processing batch 1: " ++ e) ∧
      (processNodeCsvCore exec deleteNotIn cascade nodeLabel idColumn dataTypes
          datasetId data s).nodesCreated = 0) ∧
    (∀ (runQuery : σ → List RelData → Except String (σ × Nat)) (batchSize : Nat)
        (rels : List RelData) (s : σ),
      ∃ p, createRelationshipsBatch (.ok ()) runQuery batchSize rels s = .ok p) := by
  refine ⟨?_, ?_, ?_⟩
  · intro exec prep batch rest batchNum s created processed e h
    simp only [runNodeBatches, h]
  · intro exec deleteNotIn cascade nodeLabel idColumn dataTypes datasetId data
      s e hfail hne
    rcases data with _ | ⟨x, xs⟩
    · exact absurd rfl hne
    · have hch : chunkList BATCH_SIZE (x :: xs) =
          ((x :: xs).take BATCH_SIZE) ::
            chunkListGo BATCH_SIZE xs.length ((x :: xs).drop BATCH_SIZE) := rfl
      simp only [processNodeCsvCore, hch, runNodeBatches, hfail]
      refine ⟨?_, ?_, ?_⟩ <;> trivial
  · intro runQuery batchSize rels s
    exact ⟨_, rfl⟩

/-- Reading back a freshly assigned key. -/
theorem propGet_propSet (p : Props) (k : String) (v : PVal) :
    propGet (propSet p k v) k = some v := by
  induction p with
  | nil => simp [propSet, propGet, List.find?]
  | cons q rest ih =>
    by_cases h : q.1 = k
    · simp [propSet, h, propGet, List.find?]
    · simp only [propSet, if_neg h]
      simpa [propGet, List.find?, h] using ih

/-- Merging a property map into a graph that already holds a node with the
same label and merge-key value overwrites every such node's whole property
map, creates nothing, and touches no other node. -/
theorem mergeNode_overwrites (label uid : String) (p' : Props) (g1 : Graph)
    (v : PVal) (hv : v ≠ .vnull) (hp' : propGet p' uid = some v)
    (hwit : ∃ n0 ∈ g1.nodes, n0.label = label ∧ propGet n0.props uid = some v) :
    ∃ g2, mergeNode label uid p' g1 = .ok g2 ∧
      g2.nodes.length = g1.nodes.length ∧ g2.rels = g1.rels ∧
      (∀ n ∈ g2.nodes,
        n.label = label → propGet n.props uid = some v → n.props = p') ∧
      (∀ n ∈ g2.nodes,
        ¬ (n.label = label ∧ propGet n.props uid = some v) → n ∈ g1.nodes) := by
  obtain ⟨n0, hn0mem, hn0lab, hn0get⟩ := hwit
  have hany : g1.nodes.any
      (fun n => n.label = label && propGet n.props uid = some v) = true := by
    rw [List.any_eq_true]
    exact ⟨n0, hn0mem, by simp [hn0lab, hn0get]⟩
  refine ⟨{ g1 with nodes := g1.nodes.map (fun n =>
    if n.label = label && propGet n.props uid = some v then
      { n with props := p' } else n) }, ?_, ?_, rfl, ?_, ?_⟩
  · simp only [mergeNode, hp']
    rw [if_neg hv, if_pos hany]
  · exact List.length_map _ _
  · intro n hn hlab hget
    obtain ⟨m, hmmem, hmap⟩ := List.mem_map.mp hn
    by_cases hm : m.label = label ∧ propGet m.props uid = some v
    · rw [← hmap]
      simp [hm.1, hm.2]
    · have : (m.label = label && propGet m.props uid = some v) = false := by
        rcases Decidable.not_and_iff_or_not.mp hm with h | h <;> simp [h]
      rw [← hmap] at hlab hget ⊢
      simp only [this, Bool.false_eq_true, if_false] at hlab hget ⊢
      exact absurd ⟨hlab, hget⟩ hm
  · intro n hn hnot
    obtain ⟨m, hmmem, hmap⟩ := List.mem_map.mp hn
    by_cases hm : m.label = label ∧ propGet m.props uid = some v
    · exfalso
      apply hnot
      rw [← hmap]
      simp [hm.1, hm.2, hp']
    · have : (m.label = label && propGet m.props uid = some v) = false := by
        rcases Decidable.not_and_iff_or_not.mp hm with h | h <;> simp [h]
      rw [← hmap]
      simp only [this, Bool.false_eq_true, if_false]
      exact hmmem

/-- C2 (amended): entity ingestion injects the dataset tag into every node's
property map, and the upsert is idempotent — but it is keyed by
`(label, identifier)` only: the dataset tag is not part of the merge key.
Re-uploading an identifier overwrites the existing node's properties without
duplicating it, whether or not the new row carries the same dataset tag; so
entities of different labels never collide, while two entities with the same
label and identifier from different datasets do collide (the later upsert
overwrites the earlier one, tag included). -/
theorem upsert_keyed_by_label_and_id :
    (∀ (idColumn : String) (dataTypes : String → String) (datasetId : Int)
        (row : Row),
      propGet (prepNodeProps idColumn dataTypes datasetId row) "dataset_id" =
        some (.vint datasetId)) ∧
    (∀ (label uid : String) (p' : Props) (g1 : Graph) (v : PVal),
      v ≠ .vnull → propGet p' uid = some v →
      (∃ n0 ∈ g1.nodes, n0.label = label ∧ propGet n0.props uid = some v) →
      ∃ g2, mergeNode label uid p' g1 = .ok g2 ∧
        g2.nodes.length = g1.nodes.length ∧ g2.rels = g1.rels ∧
        (∀ n ∈ g2.nodes,
          n.label = label → propGet n.props uid = some v → n.props = p') ∧
        (∀ n ∈ g2.nodes,
          ¬ (n.label = label ∧ propGet n.props uid = some v) → n ∈ g1.nodes)) ∧
    createNodesBatch "Person" [[("id", .vint 1), ("name", .vstr "B"),
        ("dataset_id", .vint 1)]] (some "id") 1000
      ⟨1, [⟨0, "Person", collisionPropsA⟩], []⟩ =
      .ok (⟨1, [⟨0, "Person", [("id", .vint 1), ("name", .vstr "B"),
        ("dataset_id", .vint 1)]⟩], []⟩, 1) ∧
    createNodesBatch "Product" [[("id", .vint 1), ("dataset_id", .vint 1)]]
      (some "id") 1000 ⟨1, [⟨0, "Person", collisionPropsA⟩], []⟩ =
      .ok (⟨2, [⟨0, "Person", collisionPropsA⟩,
        ⟨1, "Product", [("id", .vint 1), ("dataset_id", .vint 1)]⟩], []⟩, 1) ∧
    createNodesBatch "Item" [[("id", .vint 7), ("dataset_id", .vint 2)]]
      (some "id") 1000 ⟨1, [⟨0, "Item", [("id", .vint 7),
        ("dataset_id", .vint 1)]⟩], []⟩ =
      .ok (⟨1, [⟨0, "Item", [("id", .vint 7), ("dataset_id", .vint 2)]⟩], []⟩, 1) := by
  refine ⟨?_, mergeNode_overwrites, by rfl, by rfl, by rfl⟩
  intro idColumn dataTypes datasetId row
  exact propGet_propSet _ _ _

/-- An entity row `id,name` as parsed. -/
def exRow (i : Nat) : Row :=
  [("id", some (toString i)), ("name", some ("n" ++ toString i))]

/-- Cascade example, first upload: ids `{1,2,3}` into an empty store. -/
def exIngest1 : NodeTaskOutcome Graph :=
  ingestNodeFile true (some "Person") "id" (fun _ => "integer") 1
    [exRow 1, exRow 2, exRow 3] Graph.empty

/-- The store after the first upload, with two relationships attached — one
touching the node with id 1 (handle 0), one between the survivors. -/
def exGraphWithRels : Graph :=
  { exIngest1.store with rels := [⟨0, 1, "KNOWS", []⟩, ⟨1, 2, "KNOWS", []⟩] }

/-- Cascade example, re-upload: ids `{2,3,4}` with `cascade_delete` set. -/
def exIngest2 : NodeTaskOutcome Graph :=
  ingestNodeFile true (some "Person") "id" (fun _ => "integer") 1
    [exRow 2, exRow 3, exRow 4] exGraphWithRels

/-- Membership in the cascade-delete survivor set. -/
theorem mem_deleteNodesNotInSet_nodes {L : String} {d : Int} {idc : String}
    {ids : List PVal} {g0 : Graph} {n : GNode}
    (h : n ∈ (deleteNodesNotInSet L d idc ids g0).1.nodes) :
    n ∈ g0.nodes ∧ cascadeDoomed L d idc ids n = false := by
  simp only [deleteNodesNotInSet] at h
  have h' := List.mem_filter.mp h
  refine ⟨h'.1, ?_⟩
  rcases Bool.eq_false_or_eq_true (cascadeDoomed L d idc ids n) with hb | hb
  · exfalso
    have h2 := h'.2
    simp [hb] at h2
  · exact hb

/-- C1: with the dataset's cascade flag set, a successful entity-file
ingestion leaves, for the file's label and dataset tag, only entities whose
identifier (coerced as the pipeline coerces it) occurs in the file; the
cascade delete removes every relationship touching a deleted entity.  In
particular ingesting ids `{1,2,3}` and then re-uploading `{2,3,4}` leaves
exactly `{2,3,4}` for the label, dropping the relationship attached to the
deleted id. -/
theorem cascade_sync_deletes_absent_ids (nodeLabel idColumn : String)
    (dataTypes : String → String) (datasetId : Int) (data : List Row)
    (g : Graph) (hl : nodeLabel ≠ "") (hid : idColumn ≠ "")
    (hdone : (ingestNodeFile true (some nodeLabel) idColumn dataTypes datasetId
      data g).status = "completed") :
    (∀ n ∈ (ingestNodeFile true (some nodeLabel) idColumn dataTypes datasetId
        data g).store.nodes,
      n.label = nodeLabel →
      propGet n.props "dataset_id" = some (.vint datasetId) →
      ∃ v, propGet n.props idColumn = some v ∧ v ∈ idsInFileOf idColumn data) ∧
    (∀ (g0 : Graph) (r : GRel),
      r ∈ (deleteNodesNotInSet nodeLabel datasetId idColumn
        (idsInFileOf idColumn data) g0).1.rels →
      r ∈ g0.rels ∧
        ∀ n ∈ g0.nodes,
          cascadeDoomed nodeLabel datasetId idColumn (idsInFileOf idColumn data)
            n = true → n.handle ≠ r.src ∧ n.handle ≠ r.tgt) ∧
    exIngest2.status = "completed" ∧
    (exIngest2.store.nodes.filter (fun n => n.label = "Person" &&
        propGet n.props "dataset_id" = some (.vint 1))).map
      (fun n => propGet n.props "id") =
      [some (.vint 2), some (.vint 3), some (.vint 4)] ∧
    exIngest2.store.rels = [⟨1, 2, "KNOWS", []⟩] ∧
    exIngest2.nodesDeleted = 1 := by
  refine ⟨?_, ?_, by decide, by decide, by decide, by decide⟩
  · intro n hn hlab htag
    have hcond : (truthy (some nodeLabel) && decide (idColumn ≠ "") && true)
        = true := by simp [truthy, hl, hid]
    have hif : ∀ {α : Type} (x y : α), (if (true : Bool) = true then x else y) = x :=
      fun x y => rfl
    rcases herr : (runNodeBatches
        (fun g' batch => createNodesBatch ((some nodeLabel).getD "Node") batch
          (some idColumn) BATCH_SIZE g')
        (prepNodeProps idColumn dataTypes datasetId)
        (chunkList BATCH_SIZE data) 0 g 0 0).2.2.2 with _ | msg
    · simp only [ingestNodeFile, processNodeCsvCore, herr, hcond, hif] at hn
      have hsplit := mem_deleteNodesNotInSet_nodes hn
      have hdoom := hsplit.2
      have hlab' : n.label = (some nodeLabel).getD "Node" := hlab
      simp only [cascadeDoomed, hlab', htag, decide_True, Bool.true_and,
        eq_self_iff_true] at hdoom
      have hM : (match propGet n.props idColumn with
          | some v => (idsInFileOf idColumn data).contains v
          | none => false) = true := by
        rcases Bool.eq_false_or_eq_true (match propGet n.props idColumn with
            | some v => (idsInFileOf idColumn data).contains v
            | none => false) with hMb | hMb
        · exact hMb
        · rw [hMb] at hdoom
          exact absurd hdoom (by decide)
      rcases hpg : propGet n.props idColumn with _ | v
      · rw [hpg] at hM
        simp at hM
      · refine ⟨v, rfl, ?_⟩
        rw [hpg] at hM
        simpa using hM
    · exfalso
      simp only [ingestNodeFile, processNodeCsvCore, herr] at hdone
      exact absurd hdone (by decide)
  · intro g0 r hr
    simp only [deleteNodesNotInSet] at hr
    have hmem := List.mem_filter.mp hr
    refine ⟨hmem.1, ?_⟩
    intro n hn hdoom
    have h2 := hmem.2
    simp only [Bool.and_eq_true, decide_eq_true_eq] at h2
    have hhandle : n.handle ∈ ((g0.nodes.filter
        (cascadeDoomed nodeLabel datasetId idColumn
          (idsInFileOf idColumn data))).map (·.handle)) :=
      List.mem_map.mpr ⟨n, List.mem_filter.mpr ⟨hn, hdoom⟩, rfl⟩
    constructor
    · intro hcontra
      apply h2.1
      rw [← hcontra]
      simpa using hhandle
    · intro hcontra
      apply h2.2
      rw [← hcontra]
      simpa using hhandle

/-- C1 witness: the amended-free claim instantiated at the spec's
`{1,2,3}` / `{2,3,4}` example. -/
theorem cascade_sync_deletes_absent_ids_witness :
    exIngest2.status = "completed" ∧
    (exIngest2.store.nodes.filter (fun n => n.label = "Person" &&
        propGet n.props "dataset_id" = some (.vint 1))).map
      (fun n => propGet n.props "id") =
      [some (.vint 2), some (.vint 3), some (.vint 4)] :=
  ⟨(cascade_sync_deletes_absent_ids "Person" "id" (fun _ => "integer") 1
      [exRow 2, exRow 3, exRow 4] exGraphWithRels (by decide) (by decide)
      (by decide)).2.2.1,
   (cascade_sync_deletes_absent_ids "Person" "id" (fun _ => "integer") 1
      [exRow 2, exRow 3, exRow 4] exGraphWithRels (by decide) (by decide)
      (by decide)).2.2.2.1⟩

/-- C6 witness: single-batch retention instantiated at a two-row file whose
first row is skipped. -/
theorem rel_warnings_last_batch_only_witness :
    (processRelationshipCore (σ := Unit) (fun _ _ _ => true) (.ok ())
        (fun _ b => .ok ((), b.length)) false id "P" "P" (fun _ => "string") 1
        [relRowNoSource, relRowGood 2] ()).validationWarnings =
      (processRelBatch (σ := Unit) (fun _ _ _ => true) "P" "P"
        (fun _ => "string") 1 0 [relRowNoSource, relRowGood 2] ()).2.1.take 100 :=
  (rel_warnings_last_batch_only (σ := Unit) (fun _ _ _ => true)
    (fun _ b => ((), b.length)) "P" "P" (fun _ => "string") 1
    [relRowNoSource, relRowGood 2] () (by decide) (by decide)).1

/-! ### Digit-string facts for the row-number messages -/

theorem digitChar_isDigit (m : Nat) (h : m < 10) :
    (Nat.digitChar m).isDigit = true := by
  interval_cases m <;> decide

theorem toDigitsCore_digits (f : Nat) :
    ∀ (n : Nat) (l : List Char), (∀ c ∈ l, c.isDigit = true) →
    ∀ c ∈ Nat.toDigitsCore 10 f n l, c.isDigit = true := by
  induction f with
  | zero => intro n l hl c hc; exact hl c hc
  | succ f ih =>
    intro n l hl c hc
    rw [Nat.toDigitsCore] at hc
    by_cases hdiv : n / 10 = 0
    · rw [if_pos hdiv] at hc
      rcases List.mem_cons.mp hc with h | h
      · subst h; exact digitChar_isDigit _ (Nat.mod_lt _ (by omega))
      · exact hl c h
    · rw [if_neg hdiv] at hc
      refine ih (n / 10) (Nat.digitChar (n % 10) :: l) ?_ c hc
      intro d hd
      rcases List.mem_cons.mp hd with h | h
      · subst h; exact digitChar_isDigit _ (Nat.mod_lt _ (by omega))
      · exact hl d h

/-- Every character of a natural number's decimal rendering is a digit. -/
theorem mem_toString_nat_isDigit (n : Nat) :
    ∀ c ∈ (toString n).data, c.isDigit = true := by
  intro c hc
  have : (toString n).data = Nat.toDigitsCore 10 (n + 1) n [] := rfl
  rw [this] at hc
  exact toDigitsCore_digits (n + 1) n [] (by intro d hd; cases hd) c hc

/-- A successful substring match witnesses its first character. -/
theorem head_mem_of_containsL (p : Char) (ps l : List Char)
    (h : containsL (p :: ps) l = true) : p ∈ l := by
  induction l with
  | nil => exact absurd h (by simp [containsL, List.isEmpty])
  | cons c cs ih =>
    rw [containsL, Bool.or_eq_true] at h
    rcases h with h | h
    · rw [startsWithL, Bool.and_eq_true, decide_eq_true_eq] at h
      exact h.1 ▸ List.mem_cons_self c cs
    · exact List.mem_cons_of_mem c (ih h)

/-- The column-count mismatch message never contains the word `Missing`
(its fixed text has no `M` and the interpolated numbers are digits). -/
theorem mismatchMsg_not_missing (r a b : Nat) :
    strContains (mismatchMsg r a b) "Missing" = false := by
  rcases Bool.eq_false_or_eq_true (strContains (mismatchMsg r a b) "Missing")
    with h | h
  · exfalso
    have hmem : 'M' ∈ (mismatchMsg r a b).data := head_mem_of_containsL _ _ _ h
    have hsplit : (mismatchMsg r a b).data =
        "Row ".data ++ (toString r).data ++
        ": All rows must have the same number of columns (".data ++
        (toString a).data ++ " vs ".data ++ (toString b).data ++ ")".data := by
      simp [mismatchMsg, String.data_append]
    rw [hsplit] at hmem
    simp only [List.mem_append] at hmem
    rcases hmem with ((((((h1 | h2) | h3) | h4) | h5) | h6) | h7)
    · exact absurd h1 (by decide)
    · exact absurd (mem_toString_nat_isDigit r 'M' h2) (by decide)
    · exact absurd h3 (by decide)
    · exact absurd (mem_toString_nat_isDigit a 'M' h4) (by decide)
    · exact absurd h5 (by decide)
    · exact absurd (mem_toString_nat_isDigit b 'M' h6) (by decide)
    · exact absurd h7 (by decide)
  · exact h

/-! ### `_consolidate_errors` characterisation -/

/-- Whether `_consolidate_errors` keeps an error string (duplicates aside):
header-level required-field errors always, row-level `Missing` errors only
when no header-missing column occurs in them, everything else always. -/
def consolidateKeep (missing : List String) (e : String) : Bool :=
  if strContains e "For node files required fields" ||
      strContains e "For relationship files required fields" then true
  else if strContains e "Row" && strContains e "Missing" then
    ¬ missing.any (fun col => strContains (pyLower e) (pyLower col))
  else true

theorem consolidateStep_spec (missing : List String)
    (seen cons : List String) (e : String) :
    consolidateStep missing (seen, cons) e =
      (if seen.contains e then (seen, cons)
       else (seen ++ [e],
         cons ++ (if consolidateKeep missing e then [e] else []))) := by
  simp only [consolidateStep, consolidateKeep]
  by_cases h0 : e ∈ seen
  · simp [h0]
  · by_cases h1 : (strContains e "For node files required fields" ||
        strContains e "For relationship files required fields") = true
    · simp [h0, h1]
    · by_cases h2 : (strContains e "Row" && strContains e "Missing") = true
      · by_cases h3 : (missing.any
            (fun col => strContains (pyLower e) (pyLower col))) = true
        · simp [h0, h1, h2, h3]
        · simp [h0, h1, h2, h3]
      · simp [h0, h1, h2]

theorem consolidate_fold_spec (missing : List String) :
    ∀ (errs seen cons : List String),
    (∀ x, x ∈ cons ↔ x ∈ seen ∧ consolidateKeep missing x = true) →
    cons.Nodup →
    (∀ x, x ∈ (errs.foldl (consolidateStep missing) (seen, cons)).2 ↔
      (x ∈ seen ∨ x ∈ errs) ∧ consolidateKeep missing x = true) ∧
    (errs.foldl (consolidateStep missing) (seen, cons)).2.Nodup := by
  intro errs
  induction errs with
  | nil =>
    intro seen cons hinv hnd
    refine ⟨fun x => ?_, hnd⟩
    simpa using hinv x
  | cons e es ih =>
    intro seen cons hinv hnd
    rw [List.foldl_cons, consolidateStep_spec]
    by_cases hseen : seen.contains e = true
    · rw [if_pos hseen]
      have hmem : e ∈ seen := by simpa using hseen
      obtain ⟨h1, h2⟩ := ih seen cons hinv hnd
      refine ⟨fun x => ?_, h2⟩
      rw [h1 x]
      constructor
      · rintro ⟨hs | hes, hk⟩
        · exact ⟨Or.inl hs, hk⟩
        · exact ⟨Or.inr (List.mem_cons_of_mem e hes), hk⟩
      · rintro ⟨hs | hes, hk⟩
        · exact ⟨Or.inl hs, hk⟩
        · rcases List.mem_cons.mp hes with rfl | hes
          · exact ⟨Or.inl hmem, hk⟩
          · exact ⟨Or.inr hes, hk⟩
    · rw [if_neg hseen]
      have hnmem : e ∉ seen := fun h => hseen (by simpa using h)
      have hinv' : ∀ x, x ∈ cons ++ (if consolidateKeep missing e then [e]
          else []) ↔ x ∈ seen ++ [e] ∧ consolidateKeep missing x = true := by
        intro x
        rw [List.mem_append, List.mem_append, hinv x]
        by_cases hk : consolidateKeep missing e = true
        · rw [if_pos hk]
          constructor
          · rintro (⟨hs, h⟩ | hx)
            · exact ⟨Or.inl hs, h⟩
            · rcases List.mem_singleton.mp hx with rfl
              exact ⟨Or.inr (List.mem_singleton.mpr rfl), hk⟩
          · rintro ⟨hs | hx, h⟩
            · exact Or.inl ⟨hs, h⟩
            · exact Or.inr hx
        · rw [if_neg hk]
          constructor
          · rintro (⟨hs, h⟩ | hx)
            · exact ⟨Or.inl hs, h⟩
            · cases hx
          · rintro ⟨hs | hx, h⟩
            · exact Or.inl ⟨hs, h⟩
            · rcases List.mem_singleton.mp hx with rfl
              exact absurd h hk
      have hnd' : (cons ++ (if consolidateKeep missing e then [e]
          else [])).Nodup := by
        by_cases hk : consolidateKeep missing e = true
        · rw [if_pos hk]
          refine List.Nodup.append hnd (List.nodup_singleton e) ?_
          intro x hx hx'
          rcases List.mem_singleton.mp hx' with rfl
          exact hnmem ((hinv x).mp hx).1
        · rw [if_neg hk]
          simpa using hnd
      obtain ⟨h1, h2⟩ := ih (seen ++ [e]) _ hinv' hnd'
      refine ⟨fun x => ?_, h2⟩
      rw [h1 x]
      constructor
      · rintro ⟨hs | hes, hk⟩
        · rcases List.mem_append.mp hs with hs | hx
          · exact ⟨Or.inl hs, hk⟩
          · rcases List.mem_singleton.mp hx with rfl
            exact ⟨Or.inr (List.mem_cons_self _ _), hk⟩
        · exact ⟨Or.inr (List.mem_cons_of_mem e hes), hk⟩
      · rintro ⟨hs | hes, hk⟩
        · exact ⟨Or.inl (List.mem_append.mpr (Or.inl hs)), hk⟩
        · rcases List.mem_cons.mp hes with rfl | hes
          · exact ⟨Or.inl (List.mem_append.mpr (Or.inr (List.mem_singleton.mpr
              rfl))), hk⟩
          · exact ⟨Or.inr hes, hk⟩

/-- Full characterisation of `_consolidate_errors`: the output holds exactly
the kept input errors, each once. -/
theorem consolidateErrors_spec (missing errors : List String) :
    (∀ x, x ∈ consolidateErrors missing errors ↔
      x ∈ errors ∧ consolidateKeep missing x = true) ∧
    (consolidateErrors missing errors).Nodup := by
  by_cases h : errors = []
  · subst h
    refine ⟨fun x => ?_, by simp [consolidateErrors]⟩
    simp [consolidateErrors]
  · rw [consolidateErrors, if_neg h]
    have := consolidate_fold_spec missing errors [] []
      (by intro x; simp) List.nodup_nil
    refine ⟨fun x => ?_, this.2⟩
    rw [this.1 x]
    simp

/-- A completely blank row is skipped: the scan continues with the next row
number and an unchanged non-blank count, producing nothing. -/
theorem validateRowsAux_blank (kind : VKind) (isRel : Bool)
    (missing header : List String) (row : List String)
    (rest : List (List String)) (rowNum rc : Nat)
    (hb : isBlankRow row = true) :
    validateRowsAux kind isRel missing header (row :: rest) rowNum rc =
      validateRowsAux kind isRel missing header rest (rowNum + 1) rc := by
  simp [validateRowsAux, hb]

/-- Within the validation cap, a non-blank row with a mismatched column count
contributes its error to the scan's output — wherever it sits, so the scan
does not abort at the first mismatch. -/
theorem validateRowsAux_mismatch_mem (kind : VKind) (isRel : Bool)
    (missing header : List String) :
    ∀ (rows : List (List String)) (rowNum rowCount i : Nat),
      rowCount + rows.length ≤ MAX_ROW_VALIDATION →
      ∀ (hi : i < rows.length),
      isBlankRow (rows.get ⟨i, hi⟩) = false →
      (rows.get ⟨i, hi⟩).length ≠ header.length →
      mismatchMsg (rowNum + i) (rows.get ⟨i, hi⟩).length header.length ∈
        (validateRowsAux kind isRel missing header rows rowNum rowCount).1 := by
  intro rows
  induction rows with
  | nil =>
    intro rowNum rowCount i hcap hi
    exact absurd hi (by simp)
  | cons row rest ih =>
    intro rowNum rowCount i hcap hi hnb hlen
    have hcaprest : rowCount + rest.length ≤ MAX_ROW_VALIDATION := by
      simp only [List.length_cons] at hcap
      omega
    by_cases hb : isBlankRow row = true
    · rcases i with _ | j
      · have hnb' : isBlankRow row = false := hnb
        exact absurd (hnb'.symm.trans hb) (by decide)
      · rw [validateRowsAux_blank kind isRel missing header row rest rowNum
          rowCount hb]
        have harith : rowNum + (j + 1) = (rowNum + 1) + j := by omega
        rw [harith]
        exact ih (rowNum + 1) rowCount j hcaprest
          (Nat.lt_of_succ_lt_succ hi) hnb hlen
    · have hb' : isBlankRow row = false := by
        rcases Bool.eq_false_or_eq_true (isBlankRow row) with h | h
        · exact absurd h hb
        · exact h
      have hno : ¬ (rowCount + 1 > MAX_ROW_VALIDATION) := by
        simp only [List.length_cons] at hcap
        omega
      have hcaprest1 : rowCount + 1 + rest.length ≤ MAX_ROW_VALIDATION := by
        simp only [List.length_cons] at hcap
        omega
      rcases i with _ | j
      · have hlen' : row.length ≠ header.length := hlen
        have hstep : (validateRowsAux kind isRel missing header (row :: rest)
            rowNum rowCount).1 =
            ("Row " ++ toString rowNum ++
              ": All rows must have the same number of columns (" ++
              toString row.length ++ " vs " ++ toString header.length ++ ")") ::
            (validateRowsAux kind isRel missing header rest (rowNum + 1)
              (rowCount + 1)).1 := by
          simp [validateRowsAux, hb', hno, hlen']
        show mismatchMsg (rowNum + 0) row.length header.length ∈ _
        rw [Nat.add_zero, hstep]
        exact List.mem_cons_self _ _
      · by_cases hrl : row.length ≠ header.length
        · have hstep : (validateRowsAux kind isRel missing header (row :: rest)
              rowNum rowCount).1 =
              ("Row " ++ toString rowNum ++
                ": All rows must have the same number of columns (" ++
                toString row.length ++ " vs " ++ toString header.length ++ ")") ::
              (validateRowsAux kind isRel missing header rest (rowNum + 1)
                (rowCount + 1)).1 := by
            simp [validateRowsAux, hb', hno, hrl]
          rw [hstep]
          have harith : rowNum + (j + 1) = (rowNum + 1) + j := by omega
          rw [harith]
          exact List.mem_cons_of_mem _
            (ih (rowNum + 1) (rowCount + 1) j hcaprest1
              (Nat.lt_of_succ_lt_succ hi) hnb hlen)
        · have hrl' : row.length = header.length := by
            by_contra hcon
            exact hrl hcon
          have hstep : (validateRowsAux kind isRel missing header (row :: rest)
              rowNum rowCount).1 =
              (rowDataChecks kind isRel missing header row rowNum).1 ++
              (validateRowsAux kind isRel missing header rest (rowNum + 1)
                (rowCount + 1)).1 := by
            simp [validateRowsAux, hb', hno, hrl']
          rw [hstep]
          have harith : rowNum + (j + 1) = (rowNum + 1) + j := by omega
          rw [harith]
          exact List.mem_append.mpr (Or.inr
            (ih (rowNum + 1) (rowCount + 1) j hcaprest1
              (Nat.lt_of_succ_lt_succ hi) hnb hlen))

/-- A list with a member is not empty. -/
theorem isEmpty_false_of_mem {α : Type} {a : α} {l : List α} (h : a ∈ l) :
    l.isEmpty = false := by
  cases l with
  | nil => exact absurd h (List.not_mem_nil a)
  | cons x xs => rfl

/-- The mismatch message survives consolidation (it carries no `Missing`). -/
theorem consolidateKeep_mismatchMsg (missing : List String) (r a b : Nat) :
    consolidateKeep missing (mismatchMsg r a b) = true := by
  rw [consolidateKeep]
  by_cases h1 : (strContains (mismatchMsg r a b)
      "For node files required fields" ||
      strContains (mismatchMsg r a b)
        "For relationship files required fields") = true
  · rw [if_pos h1]
  · rw [if_neg h1, if_neg]
    rw [mismatchMsg_not_missing, Bool.and_false]
    exact (by decide)

/-- C9: every non-blank data row whose cell count differs from the header's
(within the 10000-row validation cap) yields exactly one error, naming the
row number and both counts, in the validator's final error list; the file is
marked invalid; and completely blank rows are skipped without producing
anything — the scan continues past any mismatch. -/
theorem row_count_mismatch_error_reported (kind : VKind)
    (header : List String) (rows : List (List String)) (i : Nat)
    (hh : header ≠ [])
    (hcells : ∀ c ∈ header, pyStrip c ≠ "")
    (hcap : rows.length ≤ MAX_ROW_VALIDATION)
    (hi : i < rows.length)
    (hnb : isBlankRow (rows.get ⟨i, hi⟩) = false)
    (hlen : (rows.get ⟨i, hi⟩).length ≠ header.length) :
    (validateCSV kind (header :: rows)).1 = false ∧
    (validateCSV kind (header :: rows)).2.1.count
      (mismatchMsg (2 + i) (rows.get ⟨i, hi⟩).length header.length) = 1 ∧
    (∀ (row : List String) (rest : List (List String)) (rowNum rc : Nat),
      isBlankRow row = true →
      validateRowsAux kind (validateRequiredColumns header).1
          (validateRequiredColumns header).2.1 header (row :: rest) rowNum rc =
        validateRowsAux kind (validateRequiredColumns header).1
          (validateRequiredColumns header).2.1 header rest (rowNum + 1) rc) := by
  have hemp : header.isEmpty = false := by
    rcases header with _ | ⟨c, cs⟩
    · exact absurd rfl hh
    · rfl
  have hall : header.all (fun col => pyStrip col ≠ "") = true := by
    rw [List.all_eq_true]
    intro c hc
    simpa using hcells c hc
  have hout : validateCSV kind (header :: rows) =
      (let rc := validateRequiredColumns header
       let e3w := validateRows kind rc.1 rc.2.1 header rows
       let errors := consolidateErrors rc.2.1
         (rc.2.2 ++ validateHeaderDuplicates header ++ e3w.1)
       (errors.isEmpty, errors, e3w.2)) := by
    simp only [validateCSV, hemp, hall]
    rfl
  have hmem3 : mismatchMsg (2 + i) (rows.get ⟨i, hi⟩).length header.length ∈
      (validateRows kind (validateRequiredColumns header).1
        (validateRequiredColumns header).2.1 header rows).1 := by
    have := validateRowsAux_mismatch_mem kind
      (validateRequiredColumns header).1 (validateRequiredColumns header).2.1
      header rows 2 0 i (by omega) hi hnb hlen
    simpa [validateRows] using this
  have hmem : mismatchMsg (2 + i) (rows.get ⟨i, hi⟩).length header.length ∈
      (validateCSV kind (header :: rows)).2.1 := by
    rw [hout]
    refine ((consolidateErrors_spec _ _).1 _).mpr ⟨?_, ?_⟩
    · exact List.mem_append.mpr (Or.inr hmem3)
    · exact consolidateKeep_mismatchMsg _ _ _ _
  refine ⟨?_, ?_, ?_⟩
  · rw [hout]
    rw [hout] at hmem
    exact isEmpty_false_of_mem hmem
  · have hnd : (validateCSV kind (header :: rows)).2.1.Nodup := by
      rw [hout]
      exact (consolidateErrors_spec _ _).2
    exact List.count_eq_one_of_mem hnd hmem
  · intro row rest rowNum rc hb
    exact validateRowsAux_blank kind _ _ header row rest rowNum rc hb

/-- C9 witness: a three-column header with a two-cell data row. -/
theorem row_count_mismatch_error_reported_witness :
    (validateCSV .node [["id", "name", "age"], ["1", "a"]]).1 = false ∧
    (validateCSV .node [["id", "name", "age"], ["1", "a"]]).2.1.count
      (mismatchMsg 2 2 3) = 1 :=
  ⟨(row_count_mismatch_error_reported .node ["id", "name", "age"] [["1", "a"]]
      0 (by decide) (by decide) (by decide) (by decide) (by decide)
      (by decide)).1,
   (row_count_mismatch_error_reported .node ["id", "name", "age"] [["1", "a"]]
      0 (by decide) (by decide) (by decide) (by decide) (by decide)
      (by decide)).2.1⟩

end GQP
